import Mathlib

/-!
Verification of the congestion-control core (`TCPTahoe`) of the
NetworkSimulation repository.

The C++ class `TCPTahoe` (header `src/tcp_tahoe.h`, implementation
`tcp_tahoe.cpp`) is embedded shallowly:

* C++ `int` / `uint64_t` fields become `ℤ`;
* C++ `double` fields become `ℚ`; the implicit `double → int` conversion
  that happens whenever a floating-point expression is stored into an
  `int` field (truncation toward zero) is made explicit by `truncQ`;
* C++ integer division (`cwnd / 2`, truncation toward zero) becomes
  `Int.tdiv`;
* the two reads of `std::chrono::steady_clock` (in `cubic_congestion_control`,
  `timeout_event` and `duplicate_ack`) become an explicit `now : ℤ`
  argument (milliseconds);
* the uniform draw of `simulate_network_congestion` becomes an explicit
  `u : ℚ` argument (see the doc comment there);
* `std::vector::push_back` becomes `++ [x]` on `List`.
-/

inductive CongestionAlgorithm
  | TAHOE
  | RENO
  | CUBIC
  | BBR
deriving DecidableEq

inductive TCPState
  | SLOW_START
  | CONGESTION_AVOIDANCE
  | FAST_RECOVERY
  | TIMEOUT
deriving DecidableEq

/-- Truncation toward zero: the C++ conversion of a `double` value to `int`. -/
def truncQ (q : ℚ) : ℤ := if 0 ≤ q then ⌊q⌋ else ⌈q⌉

/-- The fields of the C++ class `TCPTahoe` (`src/tcp_tahoe.h`). -/
structure TCPTahoe where
  cwnd : ℤ
  ssthresh : ℤ
  rtt : ℤ
  timeout : ℤ
  duplicate_ack_count : ℤ
  in_slow_start : Bool
  algorithm : CongestionAlgorithm
  current_state : TCPState
  cwnd_history : List ℤ
  ssthresh_history : List ℤ
  state_history : List String
  throughput_history : List ℚ
  rtt_history : List ℤ
  cubic_beta : ℚ
  cubic_c : ℚ
  last_cwnd_reduction_time : ℤ
  bbr_min_rtt : ℚ
  bbr_max_bandwidth : ℚ
  packet_loss_rate : ℚ
  network_utilization : ℚ
  queue_delay : ℤ

namespace TCPTahoe

/-- The constructor `TCPTahoe::TCPTahoe(CongestionAlgorithm algo)`. -/
def init (algo : CongestionAlgorithm) : TCPTahoe where
  cwnd := 1
  ssthresh := 65535
  rtt := 100
  timeout := 200
  duplicate_ack_count := 0
  in_slow_start := true
  algorithm := algo
  current_state := TCPState.SLOW_START
  cwnd_history := []
  ssthresh_history := []
  state_history := []
  throughput_history := []
  rtt_history := []
  cubic_beta := 7/10
  cubic_c := 2/5
  last_cwnd_reduction_time := 0
  bbr_min_rtt := 100
  bbr_max_bandwidth := 10
  packet_loss_rate := 0
  network_utilization := 0
  queue_delay := 0

/-- `TCPTahoe::calculate_throughput` (Mbps, 1500-byte packets). -/
def calculate_throughput (s : TCPTahoe) : ℚ :=
  if s.rtt = 0 then 0 else ((s.cwnd : ℚ) * 1500 * 8) / ((s.rtt : ℚ) * 1000)

/-- `TCPTahoe::tahoe_congestion_control`. -/
def tahoe_congestion_control (s : TCPTahoe) : TCPTahoe :=
  if s.current_state = TCPState.SLOW_START then
    let s1 := { s with state_history := s.state_history ++ ["Slow Start"],
                       cwnd := s.cwnd * 2 }
    if s1.cwnd ≥ s1.ssthresh then
      { s1 with current_state := TCPState.CONGESTION_AVOIDANCE, in_slow_start := false }
    else s1
  else
    { s with state_history := s.state_history ++ ["Congestion Avoidance"],
             cwnd := s.cwnd + 1 }

/-- `TCPTahoe::reno_congestion_control`.  The congestion-avoidance branch
stores `cwnd + 1.0/cwnd` back into the `int` field `cwnd`, hence the
truncation `truncQ`. -/
def reno_congestion_control (s : TCPTahoe) : TCPTahoe :=
  if s.current_state = TCPState.SLOW_START then
    let s1 := { s with state_history := s.state_history ++ ["Slow Start"],
                       cwnd := s.cwnd * 2 }
    if s1.cwnd ≥ s1.ssthresh then
      { s1 with current_state := TCPState.CONGESTION_AVOIDANCE, in_slow_start := false }
    else s1
  else if s.current_state = TCPState.CONGESTION_AVOIDANCE then
    { s with state_history := s.state_history ++ ["Congestion Avoidance"],
             cwnd := truncQ ((s.cwnd : ℚ) + 1 / (s.cwnd : ℚ)) }
  else if s.current_state = TCPState.FAST_RECOVERY then
    { s with state_history := s.state_history ++ ["Fast Recovery"],
             cwnd := s.cwnd + 1 }
  else s

/-- `TCPTahoe::cubic_congestion_control`; `now` is the steady-clock
reading in milliseconds. -/
def cubic_congestion_control (s : TCPTahoe) (now : ℤ) : TCPTahoe :=
  if s.current_state = TCPState.SLOW_START then
    let s1 := { s with state_history := s.state_history ++ ["CUBIC Slow Start"],
                       cwnd := s.cwnd * 2 }
    if s1.cwnd ≥ s1.ssthresh then
      { s1 with current_state := TCPState.CONGESTION_AVOIDANCE, in_slow_start := false }
    else s1
  else
    let t : ℚ := ((now - s.last_cwnd_reduction_time : ℤ) : ℚ) / 1000
    let wmax : ℚ := (s.cwnd : ℚ) / s.cubic_beta
    let target : ℚ := s.cubic_c * t ^ 3 + wmax
    if target > (s.cwnd : ℚ) then
      { s with state_history := s.state_history ++ ["CUBIC Congestion Avoidance"],
               cwnd := truncQ (min target ((s.cwnd : ℚ) + 1)) }
    else
      { s with state_history := s.state_history ++ ["CUBIC Congestion Avoidance"],
               cwnd := truncQ ((s.cwnd : ℚ) + 1 / (s.cwnd : ℚ)) }

/-- `TCPTahoe::bbr_congestion_control`. -/
def bbr_congestion_control (s : TCPTahoe) : TCPTahoe :=
  let bdp : ℚ := s.bbr_max_bandwidth * s.bbr_min_rtt / 8
  let target : ℚ := bdp * 2
  let s1 := { s with state_history := s.state_history ++ ["BBR"] }
  let s2 :=
    if (s.cwnd : ℚ) < target then
      { s1 with cwnd := truncQ (min target ((s.cwnd : ℚ) * (5/4))) }
    else if (s.cwnd : ℚ) > target * (5/4) then
      { s1 with cwnd := truncQ (max target ((s.cwnd : ℚ) * (9/10))) }
    else s1
  { s2 with current_state := TCPState.CONGESTION_AVOIDANCE }

/-- `TCPTahoe::adaptive_congestion_response`. -/
def adaptive_congestion_response (s : TCPTahoe) : TCPTahoe :=
  let s1 :=
    if s.packet_loss_rate > 5/100 then
      if s.algorithm = CongestionAlgorithm.CUBIC then { s with cubic_beta := 8/10 } else s
    else if s.packet_loss_rate < 1/100 then
      if s.algorithm = CongestionAlgorithm.CUBIC then { s with cubic_beta := 7/10 } else s
    else s
  { s1 with timeout := s1.rtt * 2 }

/-- The four `push_back` calls at the top of `TCPTahoe::send_packet`. -/
def push_window_history (s : TCPTahoe) : TCPTahoe :=
  { s with cwnd_history := s.cwnd_history ++ [s.cwnd],
           ssthresh_history := s.ssthresh_history ++ [s.ssthresh],
           throughput_history := s.throughput_history ++ [s.calculate_throughput],
           rtt_history := s.rtt_history ++ [s.rtt] }

/-- `TCPTahoe::send_packet`; `now` is the steady-clock reading consumed by
the CUBIC branch. -/
def send_packet (s : TCPTahoe) (now : ℤ) : TCPTahoe :=
  let s1 := s.push_window_history
  let s2 :=
    match s.algorithm with
    | CongestionAlgorithm.TAHOE => s1.tahoe_congestion_control
    | CongestionAlgorithm.RENO => s1.reno_congestion_control
    | CongestionAlgorithm.CUBIC => s1.cubic_congestion_control now
    | CongestionAlgorithm.BBR => s1.bbr_congestion_control
  s2.adaptive_congestion_response

/-- `TCPTahoe::timeout_event`; `now` is the steady-clock reading stored in
`last_cwnd_reduction_time`. -/
def timeout_event (s : TCPTahoe) (now : ℤ) : TCPTahoe :=
  let s1 := { s with cwnd_history := s.cwnd_history ++ [s.cwnd],
                     ssthresh_history := s.ssthresh_history ++ [s.ssthresh],
                     last_cwnd_reduction_time := now }
  let s2 :=
    match s.algorithm with
    | CongestionAlgorithm.TAHOE =>
        { s1 with state_history := s1.state_history ++ ["Timeout"],
                  ssthresh := max (Int.tdiv s1.cwnd 2) 1,
                  cwnd := 1,
                  current_state := TCPState.SLOW_START,
                  in_slow_start := true }
    | CongestionAlgorithm.RENO =>
        { s1 with state_history := s1.state_history ++ ["Timeout"],
                  ssthresh := max (Int.tdiv s1.cwnd 2) 1,
                  cwnd := 1,
                  current_state := TCPState.SLOW_START,
                  in_slow_start := true }
    | CongestionAlgorithm.CUBIC =>
        { s1 with state_history := s1.state_history ++ ["CUBIC Timeout"],
                  ssthresh := max (truncQ ((s1.cwnd : ℚ) * s1.cubic_beta)) 1,
                  cwnd := 1,
                  current_state := TCPState.SLOW_START,
                  in_slow_start := true }
    | CongestionAlgorithm.BBR =>
        { s1 with state_history := s1.state_history ++ ["BBR Timeout"],
                  cwnd := truncQ (max ((s1.cwnd : ℚ) * (8/10)) 1) }
  { s2 with duplicate_ack_count := 0 }

/-- `TCPTahoe::duplicate_ack`; `now` is the steady-clock reading stored in
`last_cwnd_reduction_time` when the fast-retransmit threshold fires. -/
def duplicate_ack (s : TCPTahoe) (now : ℤ) : TCPTahoe :=
  let cnt := s.duplicate_ack_count + 1
  if cnt ≥ 3 then
    let s1 := { s with cwnd_history := s.cwnd_history ++ [s.cwnd],
                       ssthresh_history := s.ssthresh_history ++ [s.ssthresh],
                       last_cwnd_reduction_time := now }
    let s2 :=
      match s.algorithm with
      | CongestionAlgorithm.TAHOE =>
          { s1 with state_history := s1.state_history ++ ["Fast Retransmit"],
                    ssthresh := max (Int.tdiv s1.cwnd 2) 1,
                    cwnd := 1,
                    current_state := TCPState.SLOW_START,
                    in_slow_start := true }
      | CongestionAlgorithm.RENO =>
          let newss := max (Int.tdiv s1.cwnd 2) 1
          { s1 with state_history := s1.state_history ++ ["Fast Retransmit"],
                    ssthresh := newss,
                    cwnd := newss + 3,
                    current_state := TCPState.FAST_RECOVERY,
                    in_slow_start := false }
      | CongestionAlgorithm.CUBIC =>
          let newss := max (truncQ ((s1.cwnd : ℚ) * s1.cubic_beta)) 1
          { s1 with state_history := s1.state_history ++ ["CUBIC Fast Retransmit"],
                    ssthresh := newss,
                    cwnd := newss,
                    current_state := TCPState.CONGESTION_AVOIDANCE,
                    in_slow_start := false }
      | CongestionAlgorithm.BBR =>
          { s1 with state_history := s1.state_history ++ ["BBR Fast Retransmit"] }
    { s2 with duplicate_ack_count := 0 }
  else
    { s with duplicate_ack_count := cnt }

/-- `TCPTahoe::receive_ack`. -/
def receive_ack (s : TCPTahoe) (ackNum : ℤ) : TCPTahoe :=
  let s1 :=
    if s.current_state = TCPState.FAST_RECOVERY ∧
       s.algorithm = CongestionAlgorithm.RENO then
      { s with current_state := TCPState.CONGESTION_AVOIDANCE, cwnd := s.ssthresh }
    else s
  { s1 with duplicate_ack_count := 0 }

/-- `TCPTahoe::set_network_conditions`. -/
def set_network_conditions (s : TCPTahoe) (lossRate utilization : ℚ) (delayMs : ℤ) :
    TCPTahoe :=
  { s with packet_loss_rate := lossRate,
           network_utilization := utilization,
           queue_delay := delayMs }

/-- `TCPTahoe::reset`. -/
def reset (s : TCPTahoe) : TCPTahoe :=
  { s with cwnd := 1,
           ssthresh := 65535,
           duplicate_ack_count := 0,
           in_slow_start := true,
           current_state := TCPState.SLOW_START,
           cwnd_history := [],
           ssthresh_history := [],
           state_history := [],
           throughput_history := [],
           rtt_history := [] }

/-- `TCPTahoe::set_algorithm`. -/
def set_algorithm (s : TCPTahoe) (algo : CongestionAlgorithm) : TCPTahoe :=
  reset { s with algorithm := algo }

/-- `TCPTahoe::simulate_network_congestion`.  In the C++ source the uniform
draw is produced by a `std::mt19937` that is freshly seeded from
`std::random_device` inside every call; that draw is modelled here as the
explicit argument `u`, and the steady-clock reading consumed by the nested
`timeout_event` as `now`. -/
def simulate_network_congestion (s : TCPTahoe) (u : ℚ) (now : ℤ) : TCPTahoe :=
  let s1 := if u < s.packet_loss_rate then s.timeout_event now else s
  if s1.network_utilization > 7/10 then
    { s1 with rtt := truncQ ((s1.rtt : ℚ) * (1 + s1.network_utilization)) }
  else s1

end TCPTahoe

/-- One invocation of a public operation of the session. -/
inductive Op
  | sendPacket (now : ℤ)
  | timeoutEvent (now : ℤ)
  | duplicateAck (now : ℤ)
  | receiveAck (ackNum : ℤ)
  | setNetworkConditions (lossRate utilization : ℚ) (delayMs : ℤ)
  | setAlgorithm (algo : CongestionAlgorithm)
  | reset

namespace TCPTahoe

/-- Dispatch one public operation. -/
def step (s : TCPTahoe) : Op → TCPTahoe
  | Op.sendPacket now => s.send_packet now
  | Op.timeoutEvent now => s.timeout_event now
  | Op.duplicateAck now => s.duplicate_ack now
  | Op.receiveAck n => s.receive_ack n
  | Op.setNetworkConditions l u d => s.set_network_conditions l u d
  | Op.setAlgorithm a => s.set_algorithm a
  | Op.reset => s.reset

/-- Apply a finite sequence of public operations. -/
def run (s : TCPTahoe) (ops : List Op) : TCPTahoe := ops.foldl step s

end TCPTahoe

/-- A session state reached from a freshly constructed session by a finite
sequence of public operations. -/
def reachable (a : CongestionAlgorithm) (ops : List Op) : TCPTahoe :=
  (TCPTahoe.init a).run ops

/-- An AimdRecovery (RENO) session in congestion avoidance with `cwnd = 2`. -/
def renoCaTwo : TCPTahoe :=
  { TCPTahoe.init CongestionAlgorithm.RENO with
      cwnd := 2, current_state := TCPState.CONGESTION_AVOIDANCE }

/-- A freshly constructed RENO session whose threshold was set to 8. -/
def renoSsEight : TCPTahoe :=
  { TCPTahoe.init CongestionAlgorithm.RENO with ssthresh := 8 }

/-- A freshly constructed TAHOE session whose threshold was set to 8. -/
def tahoeSsEight : TCPTahoe :=
  { TCPTahoe.init CongestionAlgorithm.TAHOE with ssthresh := 8 }

/-- A RENO session with `cwnd = 16` and no pending duplicate acks. -/
def renoSixteen : TCPTahoe :=
  { TCPTahoe.init CongestionAlgorithm.RENO with cwnd := 16 }

/-- A fresh TAHOE session whose loss-rate condition was set to 0.06. -/
def tahoeLossy : TCPTahoe :=
  (TCPTahoe.init CongestionAlgorithm.TAHOE).set_network_conditions (6/100) 0 0

/-- A fresh CUBIC session moved to the congestion-avoidance phase. -/
def cubicCa : TCPTahoe :=
  { TCPTahoe.init CongestionAlgorithm.CUBIC with
      current_state := TCPState.CONGESTION_AVOIDANCE }

namespace TCPTahoe

/-- States whose scalar window fields and history bookkeeping are the ones
the program can actually produce: positive window and threshold, the
constructor's (never mutated) BBR reference values, a phase that is never
the dead `TIMEOUT` tag, and aligned history lengths. -/
def GoodState (s : TCPTahoe) : Prop :=
  1 ≤ s.cwnd ∧ 1 ≤ s.ssthresh ∧
  s.bbr_max_bandwidth = 10 ∧ s.bbr_min_rtt = 100 ∧
  s.current_state ≠ TCPState.TIMEOUT ∧
  s.cwnd_history.length = s.ssthresh_history.length ∧
  s.ssthresh_history.length = s.state_history.length ∧
  s.throughput_history.length = s.rtt_history.length

end TCPTahoe

lemma le_truncQ (z : ℤ) (q : ℚ) (h0 : 0 ≤ z) (h : (z : ℚ) ≤ q) : z ≤ truncQ q := by
  have hq : (0 : ℚ) ≤ q := le_trans (by exact_mod_cast h0) h
  rw [truncQ, if_pos hq]
  exact Int.le_floor.mpr h

namespace TCPTahoe

lemma adaptive_eq (s : TCPTahoe) :
    s.adaptive_congestion_response =
      { s with cubic_beta :=
                 if s.algorithm = CongestionAlgorithm.CUBIC then
                   if s.packet_loss_rate > 5/100 then 8/10
                   else if s.packet_loss_rate < 1/100 then 7/10
                   else s.cubic_beta
                 else s.cubic_beta,
               timeout := s.rtt * 2 } := by
  unfold adaptive_congestion_response
  split_ifs <;> rfl


@[simp] lemma adaptive_cwnd (s : TCPTahoe) :
    s.adaptive_congestion_response.cwnd = s.cwnd := by rw [adaptive_eq]

@[simp] lemma adaptive_ssthresh (s : TCPTahoe) :
    s.adaptive_congestion_response.ssthresh = s.ssthresh := by rw [adaptive_eq]

@[simp] lemma adaptive_rtt (s : TCPTahoe) :
    s.adaptive_congestion_response.rtt = s.rtt := by rw [adaptive_eq]

@[simp] lemma adaptive_timeout (s : TCPTahoe) :
    s.adaptive_congestion_response.timeout = s.rtt * 2 := by rw [adaptive_eq]

@[simp] lemma adaptive_duplicate_ack_count (s : TCPTahoe) :
    s.adaptive_congestion_response.duplicate_ack_count = s.duplicate_ack_count := by
  rw [adaptive_eq]

@[simp] lemma adaptive_in_slow_start (s : TCPTahoe) :
    s.adaptive_congestion_response.in_slow_start = s.in_slow_start := by rw [adaptive_eq]

@[simp] lemma adaptive_algorithm (s : TCPTahoe) :
    s.adaptive_congestion_response.algorithm = s.algorithm := by rw [adaptive_eq]

@[simp] lemma adaptive_current_state (s : TCPTahoe) :
    s.adaptive_congestion_response.current_state = s.current_state := by rw [adaptive_eq]

@[simp] lemma adaptive_cwnd_history (s : TCPTahoe) :
    s.adaptive_congestion_response.cwnd_history = s.cwnd_history := by rw [adaptive_eq]

@[simp] lemma adaptive_ssthresh_history (s : TCPTahoe) :
    s.adaptive_congestion_response.ssthresh_history = s.ssthresh_history := by rw [adaptive_eq]

@[simp] lemma adaptive_state_history (s : TCPTahoe) :
    s.adaptive_congestion_response.state_history = s.state_history := by rw [adaptive_eq]

@[simp] lemma adaptive_throughput_history (s : TCPTahoe) :
    s.adaptive_congestion_response.throughput_history = s.throughput_history := by
  rw [adaptive_eq]

@[simp] lemma adaptive_rtt_history (s : TCPTahoe) :
    s.adaptive_congestion_response.rtt_history = s.rtt_history := by rw [adaptive_eq]

@[simp] lemma adaptive_cubic_c (s : TCPTahoe) :
    s.adaptive_congestion_response.cubic_c = s.cubic_c := by rw [adaptive_eq]

@[simp] lemma adaptive_last_cwnd_reduction_time (s : TCPTahoe) :
    s.adaptive_congestion_response.last_cwnd_reduction_time =
      s.last_cwnd_reduction_time := by rw [adaptive_eq]

@[simp] lemma adaptive_bbr_min_rtt (s : TCPTahoe) :
    s.adaptive_congestion_response.bbr_min_rtt = s.bbr_min_rtt := by rw [adaptive_eq]

@[simp] lemma adaptive_bbr_max_bandwidth (s : TCPTahoe) :
    s.adaptive_congestion_response.bbr_max_bandwidth = s.bbr_max_bandwidth := by
  rw [adaptive_eq]

@[simp] lemma adaptive_packet_loss_rate (s : TCPTahoe) :
    s.adaptive_congestion_response.packet_loss_rate = s.packet_loss_rate := by
  rw [adaptive_eq]

@[simp] lemma adaptive_network_utilization (s : TCPTahoe) :
    s.adaptive_congestion_response.network_utilization = s.network_utilization := by
  rw [adaptive_eq]

@[simp] lemma adaptive_queue_delay (s : TCPTahoe) :
    s.adaptive_congestion_response.queue_delay = s.queue_delay := by rw [adaptive_eq]

lemma adaptive_cubic_beta (s : TCPTahoe) :
    s.adaptive_congestion_response.cubic_beta =
      if s.algorithm = CongestionAlgorithm.CUBIC then
        if s.packet_loss_rate > 5/100 then 8/10
        else if s.packet_loss_rate < 1/100 then 7/10
        else s.cubic_beta
      else s.cubic_beta := by rw [adaptive_eq]

@[simp] lemma push_cwnd (s : TCPTahoe) : s.push_window_history.cwnd = s.cwnd := rfl

@[simp] lemma push_ssthresh (s : TCPTahoe) :
    s.push_window_history.ssthresh = s.ssthresh := rfl

@[simp] lemma push_rtt (s : TCPTahoe) : s.push_window_history.rtt = s.rtt := rfl

@[simp] lemma push_timeout (s : TCPTahoe) :
    s.push_window_history.timeout = s.timeout := rfl

@[simp] lemma push_duplicate_ack_count (s : TCPTahoe) :
    s.push_window_history.duplicate_ack_count = s.duplicate_ack_count := rfl

@[simp] lemma push_in_slow_start (s : TCPTahoe) :
    s.push_window_history.in_slow_start = s.in_slow_start := rfl

@[simp] lemma push_algorithm (s : TCPTahoe) :
    s.push_window_history.algorithm = s.algorithm := rfl

@[simp] lemma push_current_state (s : TCPTahoe) :
    s.push_window_history.current_state = s.current_state := rfl

@[simp] lemma push_cwnd_history (s : TCPTahoe) :
    s.push_window_history.cwnd_history = s.cwnd_history ++ [s.cwnd] := rfl

@[simp] lemma push_ssthresh_history (s : TCPTahoe) :
    s.push_window_history.ssthresh_history = s.ssthresh_history ++ [s.ssthresh] := rfl

@[simp] lemma push_state_history (s : TCPTahoe) :
    s.push_window_history.state_history = s.state_history := rfl

@[simp] lemma push_throughput_history (s : TCPTahoe) :
    s.push_window_history.throughput_history =
      s.throughput_history ++ [s.calculate_throughput] := rfl

@[simp] lemma push_rtt_history (s : TCPTahoe) :
    s.push_window_history.rtt_history = s.rtt_history ++ [s.rtt] := rfl

@[simp] lemma push_cubic_beta (s : TCPTahoe) :
    s.push_window_history.cubic_beta = s.cubic_beta := rfl

@[simp] lemma push_cubic_c (s : TCPTahoe) :
    s.push_window_history.cubic_c = s.cubic_c := rfl

@[simp] lemma push_last_cwnd_reduction_time (s : TCPTahoe) :
    s.push_window_history.last_cwnd_reduction_time = s.last_cwnd_reduction_time := rfl

@[simp] lemma push_bbr_min_rtt (s : TCPTahoe) :
    s.push_window_history.bbr_min_rtt = s.bbr_min_rtt := rfl

@[simp] lemma push_bbr_max_bandwidth (s : TCPTahoe) :
    s.push_window_history.bbr_max_bandwidth = s.bbr_max_bandwidth := rfl

@[simp] lemma push_packet_loss_rate (s : TCPTahoe) :
    s.push_window_history.packet_loss_rate = s.packet_loss_rate := rfl

@[simp] lemma push_network_utilization (s : TCPTahoe) :
    s.push_window_history.network_utilization = s.network_utilization := rfl

@[simp] lemma push_queue_delay (s : TCPTahoe) :
    s.push_window_history.queue_delay = s.queue_delay := rfl

lemma tahoe_cc_spec (s : TCPTahoe) (h1 : 1 ≤ s.cwnd)
    (h5 : s.current_state ≠ TCPState.TIMEOUT) :
    1 ≤ s.tahoe_congestion_control.cwnd ∧
    s.tahoe_congestion_control.ssthresh = s.ssthresh ∧
    s.tahoe_congestion_control.bbr_max_bandwidth = s.bbr_max_bandwidth ∧
    s.tahoe_congestion_control.bbr_min_rtt = s.bbr_min_rtt ∧
    s.tahoe_congestion_control.current_state ≠ TCPState.TIMEOUT ∧
    s.tahoe_congestion_control.cwnd_history = s.cwnd_history ∧
    s.tahoe_congestion_control.ssthresh_history = s.ssthresh_history ∧
    s.tahoe_congestion_control.throughput_history = s.throughput_history ∧
    s.tahoe_congestion_control.rtt_history = s.rtt_history ∧
    ∃ lbl, s.tahoe_congestion_control.state_history = s.state_history ++ [lbl] := by
  simp only [tahoe_congestion_control]
  split_ifs <;>
    exact ⟨by simp <;> omega, by simp, by simp, by simp,
           by simp [h5], by simp, by simp, by simp, by simp, _, rfl⟩

lemma reno_cc_spec (s : TCPTahoe) (h1 : 1 ≤ s.cwnd)
    (h5 : s.current_state ≠ TCPState.TIMEOUT) :
    1 ≤ s.reno_congestion_control.cwnd ∧
    s.reno_congestion_control.ssthresh = s.ssthresh ∧
    s.reno_congestion_control.bbr_max_bandwidth = s.bbr_max_bandwidth ∧
    s.reno_congestion_control.bbr_min_rtt = s.bbr_min_rtt ∧
    s.reno_congestion_control.current_state ≠ TCPState.TIMEOUT ∧
    s.reno_congestion_control.cwnd_history = s.cwnd_history ∧
    s.reno_congestion_control.ssthresh_history = s.ssthresh_history ∧
    s.reno_congestion_control.throughput_history = s.throughput_history ∧
    s.reno_congestion_control.rtt_history = s.rtt_history ∧
    ∃ lbl, s.reno_congestion_control.state_history = s.state_history ++ [lbl] := by
  have h1q : (1 : ℚ) ≤ (s.cwnd : ℚ) := by exact_mod_cast h1
  have hinv : 0 ≤ 1 / (s.cwnd : ℚ) := by positivity
  simp only [reno_congestion_control]
  split_ifs
  · exact ⟨by simp <;> omega, by simp, by simp, by simp,
           by simp [h5], by simp, by simp, by simp, by simp, _, rfl⟩
  · exact ⟨by simp <;> omega, by simp, by simp, by simp,
           by simp [h5], by simp, by simp, by simp, by simp, _, rfl⟩
  · refine ⟨?_, by simp, by simp, by simp,
           by simp [h5], by simp, by simp, by simp, by simp, _, rfl⟩
    show 1 ≤ truncQ ((s.cwnd : ℚ) + 1 / (s.cwnd : ℚ))
    exact le_trans h1 (le_truncQ s.cwnd _ (by omega) (by linarith))
  · exact ⟨by simp <;> omega, by simp, by simp, by simp,
           by simp [h5], by simp, by simp, by simp, by simp, _, rfl⟩
  · exfalso
    cases hcs : s.current_state <;> simp_all

lemma cubic_cc_spec (s : TCPTahoe) (now : ℤ) (h1 : 1 ≤ s.cwnd)
    (h5 : s.current_state ≠ TCPState.TIMEOUT) :
    1 ≤ (s.cubic_congestion_control now).cwnd ∧
    (s.cubic_congestion_control now).ssthresh = s.ssthresh ∧
    (s.cubic_congestion_control now).bbr_max_bandwidth = s.bbr_max_bandwidth ∧
    (s.cubic_congestion_control now).bbr_min_rtt = s.bbr_min_rtt ∧
    (s.cubic_congestion_control now).current_state ≠ TCPState.TIMEOUT ∧
    (s.cubic_congestion_control now).cwnd_history = s.cwnd_history ∧
    (s.cubic_congestion_control now).ssthresh_history = s.ssthresh_history ∧
    (s.cubic_congestion_control now).throughput_history = s.throughput_history ∧
    (s.cubic_congestion_control now).rtt_history = s.rtt_history ∧
    ∃ lbl, (s.cubic_congestion_control now).state_history = s.state_history ++ [lbl] := by
  have h1q : (1 : ℚ) ≤ (s.cwnd : ℚ) := by exact_mod_cast h1
  have hinv : 0 ≤ 1 / (s.cwnd : ℚ) := by positivity
  simp only [cubic_congestion_control]
  split_ifs with hs1 hs2 hg
  · exact ⟨by simp <;> omega, by simp, by simp, by simp,
           by simp [h5], by simp, by simp, by simp, by simp, _, rfl⟩
  · exact ⟨by simp <;> omega, by simp, by simp, by simp,
           by simp [h5], by simp, by simp, by simp, by simp, _, rfl⟩
  · refine ⟨?_, by simp, by simp, by simp,
           by simp [h5], by simp, by simp, by simp, by simp, _, rfl⟩
    show 1 ≤ truncQ (min _ ((s.cwnd : ℚ) + 1))
    exact le_trans h1 (le_truncQ s.cwnd _ (by omega) (le_min (le_of_lt hg) (by linarith)))
  · refine ⟨?_, by simp, by simp, by simp,
           by simp [h5], by simp, by simp, by simp, by simp, _, rfl⟩
    show 1 ≤ truncQ ((s.cwnd : ℚ) + 1 / (s.cwnd : ℚ))
    exact le_trans h1 (le_truncQ s.cwnd _ (by omega) (by linarith))

lemma bbr_cc_spec (s : TCPTahoe) (h1 : 1 ≤ s.cwnd)
    (h3 : s.bbr_max_bandwidth = 10) (h4 : s.bbr_min_rtt = 100) :
    1 ≤ s.bbr_congestion_control.cwnd ∧
    s.bbr_congestion_control.ssthresh = s.ssthresh ∧
    s.bbr_congestion_control.bbr_max_bandwidth = s.bbr_max_bandwidth ∧
    s.bbr_congestion_control.bbr_min_rtt = s.bbr_min_rtt ∧
    s.bbr_congestion_control.current_state ≠ TCPState.TIMEOUT ∧
    s.bbr_congestion_control.cwnd_history = s.cwnd_history ∧
    s.bbr_congestion_control.ssthresh_history = s.ssthresh_history ∧
    s.bbr_congestion_control.throughput_history = s.throughput_history ∧
    s.bbr_congestion_control.rtt_history = s.rtt_history ∧
    ∃ lbl, s.bbr_congestion_control.state_history = s.state_history ++ [lbl] := by
  have h1q : (1 : ℚ) ≤ (s.cwnd : ℚ) := by exact_mod_cast h1
  simp only [bbr_congestion_control, h3, h4]
  split_ifs with hg1 hg2
  · refine ⟨?_, by simp, by simp, by simp,
           by simp, by simp, by simp, by simp, by simp, _, rfl⟩
    show 1 ≤ truncQ (min _ ((s.cwnd : ℚ) * (5/4)))
    exact le_trans h1 (le_truncQ s.cwnd _ (by omega) (le_min (le_of_lt hg1) (by linarith)))
  · refine ⟨?_, by simp, by simp, by simp,
           by simp, by simp, by simp, by simp, by simp, _, rfl⟩
    show 1 ≤ truncQ (max _ ((s.cwnd : ℚ) * (9/10)))
    refine le_truncQ 1 _ (by norm_num) (le_trans (by norm_num) (le_max_left _ _))
  · exact ⟨by simp <;> omega, by simp, by simp, by simp,
           by simp, by simp, by simp, by simp, by simp, _, rfl⟩

lemma good_init (a : CongestionAlgorithm) : GoodState (init a) := by
  refine ⟨by norm_num [init], by norm_num [init], rfl, rfl, by simp [init], rfl, rfl, rfl⟩

lemma good_send (s : TCPTahoe) (now : ℤ) (h : GoodState s) :
    GoodState (s.send_packet now) := by
  obtain ⟨h1, h2, h3, h4, h5, h6, h7, h8⟩ := h
  rw [GoodState]
  simp only [send_packet]
  cases halgo : s.algorithm
  case TAHOE =>
    obtain ⟨g1, g2, g3, g4, g5, g6, g7, g8, g9, lbl, g10⟩ :=
      tahoe_cc_spec s.push_window_history (by simpa using h1) (by simpa using h5)
    refine ⟨?_, ?_, ?_, ?_, ?_, ?_, ?_, ?_⟩ <;>
      simp only [adaptive_cwnd, adaptive_ssthresh, adaptive_bbr_max_bandwidth,
        adaptive_bbr_min_rtt, adaptive_current_state, adaptive_cwnd_history,
        adaptive_ssthresh_history, adaptive_state_history, adaptive_throughput_history,
        adaptive_rtt_history, g2, g3, g4, g6, g7, g8, g9, g10,
        push_cwnd_history, push_ssthresh_history, push_state_history,
        push_throughput_history, push_rtt_history, push_ssthresh,
        push_bbr_max_bandwidth, push_bbr_min_rtt]
    · exact g1
    · exact h2
    · exact h3
    · exact h4
    · exact g5
    · simp [h6]
    · simp [h7]
    · simp [h8]
  case RENO =>
    obtain ⟨g1, g2, g3, g4, g5, g6, g7, g8, g9, lbl, g10⟩ :=
      reno_cc_spec s.push_window_history (by simpa using h1) (by simpa using h5)
    refine ⟨?_, ?_, ?_, ?_, ?_, ?_, ?_, ?_⟩ <;>
      simp only [adaptive_cwnd, adaptive_ssthresh, adaptive_bbr_max_bandwidth,
        adaptive_bbr_min_rtt, adaptive_current_state, adaptive_cwnd_history,
        adaptive_ssthresh_history, adaptive_state_history, adaptive_throughput_history,
        adaptive_rtt_history, g2, g3, g4, g6, g7, g8, g9, g10,
        push_cwnd_history, push_ssthresh_history, push_state_history,
        push_throughput_history, push_rtt_history, push_ssthresh,
        push_bbr_max_bandwidth, push_bbr_min_rtt]
    · exact g1
    · exact h2
    · exact h3
    · exact h4
    · exact g5
    · simp [h6]
    · simp [h7]
    · simp [h8]
  case CUBIC =>
    obtain ⟨g1, g2, g3, g4, g5, g6, g7, g8, g9, lbl, g10⟩ :=
      cubic_cc_spec s.push_window_history now (by simpa using h1) (by simpa using h5)
    refine ⟨?_, ?_, ?_, ?_, ?_, ?_, ?_, ?_⟩ <;>
      simp only [adaptive_cwnd, adaptive_ssthresh, adaptive_bbr_max_bandwidth,
        adaptive_bbr_min_rtt, adaptive_current_state, adaptive_cwnd_history,
        adaptive_ssthresh_history, adaptive_state_history, adaptive_throughput_history,
        adaptive_rtt_history, g2, g3, g4, g6, g7, g8, g9, g10,
        push_cwnd_history, push_ssthresh_history, push_state_history,
        push_throughput_history, push_rtt_history, push_ssthresh,
        push_bbr_max_bandwidth, push_bbr_min_rtt]
    · exact g1
    · exact h2
    · exact h3
    · exact h4
    · exact g5
    · simp [h6]
    · simp [h7]
    · simp [h8]
  case BBR =>
    obtain ⟨g1, g2, g3, g4, g5, g6, g7, g8, g9, lbl, g10⟩ :=
      bbr_cc_spec s.push_window_history (by simpa using h1) (by simpa using h3)
        (by simpa using h4)
    refine ⟨?_, ?_, ?_, ?_, ?_, ?_, ?_, ?_⟩ <;>
      simp only [adaptive_cwnd, adaptive_ssthresh, adaptive_bbr_max_bandwidth,
        adaptive_bbr_min_rtt, adaptive_current_state, adaptive_cwnd_history,
        adaptive_ssthresh_history, adaptive_state_history, adaptive_throughput_history,
        adaptive_rtt_history, g2, g3, g4, g6, g7, g8, g9, g10,
        push_cwnd_history, push_ssthresh_history, push_state_history,
        push_throughput_history, push_rtt_history, push_ssthresh,
        push_bbr_max_bandwidth, push_bbr_min_rtt]
    · exact g1
    · exact h2
    · exact h3
    · exact h4
    · exact g5
    · simp [h6]
    · simp [h7]
    · simp [h8]

lemma timeout_spec (s : TCPTahoe) (now : ℤ) (h1 : 1 ≤ s.cwnd) (h2 : 1 ≤ s.ssthresh)
    (h5 : s.current_state ≠ TCPState.TIMEOUT) :
    1 ≤ (s.timeout_event now).cwnd ∧
    1 ≤ (s.timeout_event now).ssthresh ∧
    (s.timeout_event now).bbr_max_bandwidth = s.bbr_max_bandwidth ∧
    (s.timeout_event now).bbr_min_rtt = s.bbr_min_rtt ∧
    (s.timeout_event now).current_state ≠ TCPState.TIMEOUT ∧
    (s.timeout_event now).cwnd_history = s.cwnd_history ++ [s.cwnd] ∧
    (s.timeout_event now).ssthresh_history = s.ssthresh_history ++ [s.ssthresh] ∧
    (∃ lbl, (s.timeout_event now).state_history = s.state_history ++ [lbl]) ∧
    (s.timeout_event now).throughput_history = s.throughput_history ∧
    (s.timeout_event now).rtt_history = s.rtt_history := by
  simp only [timeout_event]
  cases halgo : s.algorithm
  case TAHOE =>
    refine ⟨by norm_num, ?_, by simp, by simp, by simp, by simp, by simp,
            ⟨_, rfl⟩, by simp, by simp⟩
    show 1 ≤ max (Int.tdiv s.cwnd 2) 1
    exact le_max_right _ _
  case RENO =>
    refine ⟨by norm_num, ?_, by simp, by simp, by simp, by simp, by simp,
            ⟨_, rfl⟩, by simp, by simp⟩
    show 1 ≤ max (Int.tdiv s.cwnd 2) 1
    exact le_max_right _ _
  case CUBIC =>
    refine ⟨by norm_num, ?_, by simp, by simp, by simp, by simp, by simp,
            ⟨_, rfl⟩, by simp, by simp⟩
    show 1 ≤ max (truncQ ((s.cwnd : ℚ) * s.cubic_beta)) 1
    exact le_max_right _ _
  case BBR =>
    refine ⟨?_, h2, by simp, by simp, by simp [h5], by simp, by simp,
            ⟨_, rfl⟩, by simp, by simp⟩
    show 1 ≤ truncQ (max ((s.cwnd : ℚ) * (8/10)) 1)
    exact le_truncQ 1 _ (by norm_num) (le_max_right _ _)

lemma dup_nofire (s : TCPTahoe) (now : ℤ) (h : ¬ s.duplicate_ack_count + 1 ≥ 3) :
    s.duplicate_ack now = { s with duplicate_ack_count := s.duplicate_ack_count + 1 } := by
  simp only [duplicate_ack, if_neg h]

lemma dup_fire_spec (s : TCPTahoe) (now : ℤ) (h1 : 1 ≤ s.cwnd) (h2 : 1 ≤ s.ssthresh)
    (h5 : s.current_state ≠ TCPState.TIMEOUT)
    (hf : s.duplicate_ack_count + 1 ≥ 3) :
    1 ≤ (s.duplicate_ack now).cwnd ∧
    1 ≤ (s.duplicate_ack now).ssthresh ∧
    (s.duplicate_ack now).bbr_max_bandwidth = s.bbr_max_bandwidth ∧
    (s.duplicate_ack now).bbr_min_rtt = s.bbr_min_rtt ∧
    (s.duplicate_ack now).current_state ≠ TCPState.TIMEOUT ∧
    (s.duplicate_ack now).cwnd_history = s.cwnd_history ++ [s.cwnd] ∧
    (s.duplicate_ack now).ssthresh_history = s.ssthresh_history ++ [s.ssthresh] ∧
    (∃ lbl, (s.duplicate_ack now).state_history = s.state_history ++ [lbl]) ∧
    (s.duplicate_ack now).throughput_history = s.throughput_history ∧
    (s.duplicate_ack now).rtt_history = s.rtt_history := by
  simp only [duplicate_ack, if_pos hf]
  cases halgo : s.algorithm
  case TAHOE =>
    refine ⟨by norm_num, ?_, by simp, by simp, by simp, by simp, by simp,
            ⟨_, rfl⟩, by simp, by simp⟩
    show 1 ≤ max (Int.tdiv s.cwnd 2) 1
    exact le_max_right _ _
  case RENO =>
    refine ⟨?_, ?_, by simp, by simp, by simp, by simp, by simp,
            ⟨_, rfl⟩, by simp, by simp⟩
    · show 1 ≤ max (Int.tdiv s.cwnd 2) 1 + 3
      have := le_max_right (Int.tdiv s.cwnd 2) 1
      omega
    · show 1 ≤ max (Int.tdiv s.cwnd 2) 1
      exact le_max_right _ _
  case CUBIC =>
    refine ⟨?_, ?_, by simp, by simp, by simp, by simp, by simp,
            ⟨_, rfl⟩, by simp, by simp⟩
    · show 1 ≤ max (truncQ ((s.cwnd : ℚ) * s.cubic_beta)) 1
      exact le_max_right _ _
    · show 1 ≤ max (truncQ ((s.cwnd : ℚ) * s.cubic_beta)) 1
      exact le_max_right _ _
  case BBR =>
    exact ⟨h1, h2, by simp, by simp, by simp [h5], by simp, by simp,
           ⟨_, rfl⟩, by simp, by simp⟩

lemma good_timeout (s : TCPTahoe) (now : ℤ) (h : GoodState s) :
    GoodState (s.timeout_event now) := by
  obtain ⟨h1, h2, h3, h4, h5, h6, h7, h8⟩ := h
  obtain ⟨g1, g2, g3, g4, g5, g6, g7, ⟨lbl, g8⟩, g9, g10⟩ :=
    timeout_spec s now h1 h2 h5
  exact ⟨g1, g2, g3.trans h3, g4.trans h4, g5,
    by rw [g6, g7]; simp [h6], by rw [g7, g8]; simp [h7], by rw [g9, g10]; exact h8⟩

lemma good_dup (s : TCPTahoe) (now : ℤ) (h : GoodState s) :
    GoodState (s.duplicate_ack now) := by
  obtain ⟨h1, h2, h3, h4, h5, h6, h7, h8⟩ := h
  by_cases hf : s.duplicate_ack_count + 1 ≥ 3
  · obtain ⟨g1, g2, g3, g4, g5, g6, g7, ⟨lbl, g8⟩, g9, g10⟩ :=
      dup_fire_spec s now h1 h2 h5 hf
    exact ⟨g1, g2, g3.trans h3, g4.trans h4, g5,
      by rw [g6, g7]; simp [h6], by rw [g7, g8]; simp [h7], by rw [g9, g10]; exact h8⟩
  · rw [dup_nofire s now hf]
    exact ⟨h1, h2, h3, h4, h5, h6, h7, h8⟩

lemma good_receive (s : TCPTahoe) (n : ℤ) (h : GoodState s) :
    GoodState (s.receive_ack n) := by
  obtain ⟨h1, h2, h3, h4, h5, h6, h7, h8⟩ := h
  rw [GoodState]
  simp only [receive_ack]
  split_ifs with hfr
  · exact ⟨by simpa using h2, by simpa using h2, h3, h4, by simp, h6, h7, h8⟩
  · exact ⟨h1, h2, h3, h4, h5, h6, h7, h8⟩

lemma good_setcond (s : TCPTahoe) (l u : ℚ) (d : ℤ) (h : GoodState s) :
    GoodState (s.set_network_conditions l u d) := by
  obtain ⟨h1, h2, h3, h4, h5, h6, h7, h8⟩ := h
  exact ⟨h1, h2, h3, h4, h5, h6, h7, h8⟩

lemma good_reset (s : TCPTahoe) (h : GoodState s) : GoodState s.reset := by
  obtain ⟨h1, h2, h3, h4, h5, h6, h7, h8⟩ := h
  exact ⟨by norm_num [reset], by norm_num [reset], h3, h4, by simp [reset], rfl, rfl, rfl⟩

lemma good_setalgo (s : TCPTahoe) (a : CongestionAlgorithm) (h : GoodState s) :
    GoodState (s.set_algorithm a) := by
  obtain ⟨h1, h2, h3, h4, h5, h6, h7, h8⟩ := h
  exact ⟨by norm_num [set_algorithm, reset], by norm_num [set_algorithm, reset], h3, h4,
    by simp [set_algorithm, reset], rfl, rfl, rfl⟩

lemma good_step (s : TCPTahoe) (op : Op) (h : GoodState s) : GoodState (s.step op) := by
  cases op
  case sendPacket now => exact good_send s now h
  case timeoutEvent now => exact good_timeout s now h
  case duplicateAck now => exact good_dup s now h
  case receiveAck n => exact good_receive s n h
  case setNetworkConditions l u d => exact good_setcond s l u d h
  case setAlgorithm a => exact good_setalgo s a h
  case reset => exact good_reset s h

lemma good_run (ops : List Op) : ∀ s : TCPTahoe, GoodState s → GoodState (s.run ops) := by
  induction ops with
  | nil => intro s h; exact h
  | cons op t ih =>
      intro s h
      have : s.run (op :: t) = (s.step op).run t := rfl
      rw [this]
      exact ih _ (good_step s op h)

lemma tahoe_cc_frame (s : TCPTahoe) :
    s.tahoe_congestion_control.rtt = s.rtt ∧
    s.tahoe_congestion_control.algorithm = s.algorithm ∧
    s.tahoe_congestion_control.packet_loss_rate = s.packet_loss_rate ∧
    s.tahoe_congestion_control.cubic_beta = s.cubic_beta ∧
    s.tahoe_congestion_control.cubic_c = s.cubic_c ∧
    s.tahoe_congestion_control.last_cwnd_reduction_time = s.last_cwnd_reduction_time ∧
    s.tahoe_congestion_control.throughput_history = s.throughput_history ∧
    s.tahoe_congestion_control.ssthresh = s.ssthresh := by
  simp only [tahoe_congestion_control]
  split_ifs <;> exact ⟨rfl, rfl, rfl, rfl, rfl, rfl, rfl, rfl⟩

lemma reno_cc_frame (s : TCPTahoe) :
    s.reno_congestion_control.rtt = s.rtt ∧
    s.reno_congestion_control.algorithm = s.algorithm ∧
    s.reno_congestion_control.packet_loss_rate = s.packet_loss_rate ∧
    s.reno_congestion_control.cubic_beta = s.cubic_beta ∧
    s.reno_congestion_control.cubic_c = s.cubic_c ∧
    s.reno_congestion_control.last_cwnd_reduction_time = s.last_cwnd_reduction_time ∧
    s.reno_congestion_control.throughput_history = s.throughput_history ∧
    s.reno_congestion_control.ssthresh = s.ssthresh := by
  simp only [reno_congestion_control]
  split_ifs <;> exact ⟨rfl, rfl, rfl, rfl, rfl, rfl, rfl, rfl⟩

lemma cubic_cc_frame (s : TCPTahoe) (now : ℤ) :
    (s.cubic_congestion_control now).rtt = s.rtt ∧
    (s.cubic_congestion_control now).algorithm = s.algorithm ∧
    (s.cubic_congestion_control now).packet_loss_rate = s.packet_loss_rate ∧
    (s.cubic_congestion_control now).cubic_beta = s.cubic_beta ∧
    (s.cubic_congestion_control now).cubic_c = s.cubic_c ∧
    (s.cubic_congestion_control now).last_cwnd_reduction_time =
      s.last_cwnd_reduction_time ∧
    (s.cubic_congestion_control now).throughput_history = s.throughput_history ∧
    (s.cubic_congestion_control now).ssthresh = s.ssthresh := by
  simp only [cubic_congestion_control]
  split_ifs <;> exact ⟨rfl, rfl, rfl, rfl, rfl, rfl, rfl, rfl⟩

lemma bbr_cc_frame (s : TCPTahoe) :
    s.bbr_congestion_control.rtt = s.rtt ∧
    s.bbr_congestion_control.algorithm = s.algorithm ∧
    s.bbr_congestion_control.packet_loss_rate = s.packet_loss_rate ∧
    s.bbr_congestion_control.cubic_beta = s.cubic_beta ∧
    s.bbr_congestion_control.cubic_c = s.cubic_c ∧
    s.bbr_congestion_control.last_cwnd_reduction_time = s.last_cwnd_reduction_time ∧
    s.bbr_congestion_control.throughput_history = s.throughput_history ∧
    s.bbr_congestion_control.ssthresh = s.ssthresh := by
  simp only [bbr_congestion_control]
  split_ifs <;> exact ⟨rfl, rfl, rfl, rfl, rfl, rfl, rfl, rfl⟩

lemma send_beta_cases (s : TCPTahoe) (now : ℤ) :
    (s.send_packet now).cubic_beta = s.cubic_beta ∨
    (s.send_packet now).cubic_beta = 7/10 ∨
    (s.send_packet now).cubic_beta = 8/10 := by
  simp only [send_packet]
  cases halgo : s.algorithm
  case TAHOE =>
    obtain ⟨f1, f2, f3, f4, f5, f6, f7, f8⟩ := tahoe_cc_frame s.push_window_history
    rw [adaptive_cubic_beta, f2, f3, f4]
    simp only [push_algorithm, push_packet_loss_rate, push_cubic_beta, halgo]
    split_ifs <;> tauto
  case RENO =>
    obtain ⟨f1, f2, f3, f4, f5, f6, f7, f8⟩ := reno_cc_frame s.push_window_history
    rw [adaptive_cubic_beta, f2, f3, f4]
    simp only [push_algorithm, push_packet_loss_rate, push_cubic_beta, halgo]
    split_ifs <;> tauto
  case CUBIC =>
    obtain ⟨f1, f2, f3, f4, f5, f6, f7, f8⟩ := cubic_cc_frame s.push_window_history now
    rw [adaptive_cubic_beta, f2, f3, f4]
    simp only [push_algorithm, push_packet_loss_rate, push_cubic_beta, halgo]
    split_ifs <;> tauto
  case BBR =>
    obtain ⟨f1, f2, f3, f4, f5, f6, f7, f8⟩ := bbr_cc_frame s.push_window_history
    rw [adaptive_cubic_beta, f2, f3, f4]
    simp only [push_algorithm, push_packet_loss_rate, push_cubic_beta, halgo]
    split_ifs <;> tauto

lemma send_SS (s : TCPTahoe) (now : ℤ)
    (hst : s.current_state = TCPState.SLOW_START)
    (halgo : s.algorithm = CongestionAlgorithm.TAHOE ∨
             s.algorithm = CongestionAlgorithm.RENO ∨
             s.algorithm = CongestionAlgorithm.CUBIC) :
    (s.send_packet now).cwnd = s.cwnd * 2 ∧
    (s.send_packet now).ssthresh = s.ssthresh ∧
    (s.send_packet now).current_state =
      (if s.cwnd * 2 ≥ s.ssthresh then TCPState.CONGESTION_AVOIDANCE
       else TCPState.SLOW_START) ∧
    (s.send_packet now).algorithm = s.algorithm ∧
    (s.send_packet now).cubic_c = s.cubic_c ∧
    (s.send_packet now).last_cwnd_reduction_time = s.last_cwnd_reduction_time := by
  simp only [send_packet]
  rcases halgo with h | h | h <;>
    rw [h] <;>
    simp only [tahoe_congestion_control, reno_congestion_control,
      cubic_congestion_control, push_current_state, hst, if_pos rfl, reduceIte,
      push_cwnd, push_ssthresh] <;>
    split_ifs <;>
    simp_all

lemma send_CA_tahoe (s : TCPTahoe) (now : ℤ)
    (hst : s.current_state = TCPState.CONGESTION_AVOIDANCE)
    (halgo : s.algorithm = CongestionAlgorithm.TAHOE) :
    (s.send_packet now).cwnd = s.cwnd + 1 ∧
    (s.send_packet now).ssthresh = s.ssthresh ∧
    (s.send_packet now).current_state = TCPState.CONGESTION_AVOIDANCE ∧
    (s.send_packet now).algorithm = s.algorithm := by
  simp only [send_packet, halgo]
  simp only [tahoe_congestion_control, push_current_state, hst, reduceCtorEq,
    if_false, push_cwnd, push_ssthresh]
  exact ⟨by simp, by simp, by simp [hst], by simp [halgo]⟩

lemma send_CA_reno (s : TCPTahoe) (now : ℤ)
    (hst : s.current_state = TCPState.CONGESTION_AVOIDANCE)
    (halgo : s.algorithm = CongestionAlgorithm.RENO) :
    (s.send_packet now).cwnd = truncQ ((s.cwnd : ℚ) + 1 / (s.cwnd : ℚ)) ∧
    (s.send_packet now).ssthresh = s.ssthresh ∧
    (s.send_packet now).current_state = TCPState.CONGESTION_AVOIDANCE ∧
    (s.send_packet now).algorithm = s.algorithm := by
  simp only [send_packet, halgo]
  simp only [reno_congestion_control, push_current_state, hst, reduceCtorEq,
    if_false, if_pos rfl, reduceIte, push_cwnd, push_ssthresh]
  exact ⟨by simp, by simp, by simp [hst], by simp [halgo]⟩

lemma cubic_target_gt (cwnd : ℤ) (β c t : ℚ) (h1 : 1 ≤ cwnd)
    (hβ : β = 7/10 ∨ β = 8/10) (hc : 0 ≤ c) (ht : 0 ≤ t) :
    (cwnd : ℚ) < c * t ^ 3 + (cwnd : ℚ) / β := by
  have h1q : (1 : ℚ) ≤ (cwnd : ℚ) := by exact_mod_cast h1
  have ht3 : 0 ≤ c * t ^ 3 := by positivity
  rcases hβ with hb | hb <;> subst hb
  · have heq : (cwnd : ℚ) / (7/10) = (cwnd : ℚ) * (10/7) := by ring
    rw [heq]; linarith
  · have heq : (cwnd : ℚ) / (8/10) = (cwnd : ℚ) * (10/8) := by ring
    rw [heq]; linarith

lemma send_CA_cubic (s : TCPTahoe) (now : ℤ)
    (hst : s.current_state = TCPState.CONGESTION_AVOIDANCE)
    (halgo : s.algorithm = CongestionAlgorithm.CUBIC)
    (hβ : s.cubic_beta = 7/10 ∨ s.cubic_beta = 8/10) (hc : 0 ≤ s.cubic_c)
    (h1 : 1 ≤ s.cwnd) (ht : s.last_cwnd_reduction_time ≤ now) :
    (s.cwnd : ℚ) <
      s.cubic_c * (((now - s.last_cwnd_reduction_time : ℤ) : ℚ) / 1000) ^ 3 +
        (s.cwnd : ℚ) / s.cubic_beta ∧
    (s.send_packet now).cwnd =
      truncQ (min (s.cubic_c * (((now - s.last_cwnd_reduction_time : ℤ) : ℚ) / 1000) ^ 3 +
        (s.cwnd : ℚ) / s.cubic_beta) ((s.cwnd : ℚ) + 1)) ∧
    (s.send_packet now).ssthresh = s.ssthresh ∧
    (s.send_packet now).current_state = TCPState.CONGESTION_AVOIDANCE ∧
    (s.send_packet now).algorithm = s.algorithm := by
  have htq : (0 : ℚ) ≤ ((now - s.last_cwnd_reduction_time : ℤ) : ℚ) / 1000 := by
    have : (0 : ℚ) ≤ ((now - s.last_cwnd_reduction_time : ℤ) : ℚ) := by
      exact_mod_cast Int.sub_nonneg.mpr ht
    linarith
  have hgt := cubic_target_gt s.cwnd s.cubic_beta s.cubic_c
    (((now - s.last_cwnd_reduction_time : ℤ) : ℚ) / 1000) h1 hβ hc htq
  refine ⟨hgt, ?_, ?_, ?_, ?_⟩ <;>
    simp only [send_packet, halgo] <;>
    simp only [cubic_congestion_control, push_current_state, hst, reduceCtorEq,
      if_false, push_cwnd, push_ssthresh, push_last_cwnd_reduction_time,
      push_cubic_beta, push_cubic_c] <;>
    rw [if_pos (by exact_mod_cast hgt)] <;>
    simp [hst, halgo]

end TCPTahoe

/-- C1: for every algorithm variant and every finite sequence of the public
operations (sendPacket, timeoutEvent, duplicateAck, receiveAck,
setNetworkConditions, setAlgorithm, reset) applied to a freshly constructed
session, after every operation the congestion window satisfies `cwnd ≥ 1`
and the slow-start threshold satisfies `ssthresh ≥ 1`. -/
theorem C1_window_invariant (a : CongestionAlgorithm) (ops : List Op) :
    1 ≤ (reachable a ops).cwnd ∧ 1 ≤ (reachable a ops).ssthresh :=
  ⟨(TCPTahoe.good_run ops _ (TCPTahoe.good_init a)).1,
   (TCPTahoe.good_run ops _ (TCPTahoe.good_init a)).2.1⟩

/-- C2 (code bug): under RENO in congestion avoidance with `cwnd = 2`, one
`send_packet()` leaves the integer window at 2 — the fractional AIMD
increment `1/cwnd` is truncated away by the `int` storage — instead of
producing `cwnd + 1/cwnd = 5/2` as the spec states. -/
theorem C2_reno_fractional_increment_truncated :
    (renoCaTwo.send_packet 0).cwnd = 2 ∧
    ((renoCaTwo.send_packet 0).cwnd : ℚ) ≠
      (renoCaTwo.cwnd : ℚ) + 1 / (renoCaTwo.cwnd : ℚ) := by
  have h := (TCPTahoe.send_CA_reno renoCaTwo 0 rfl rfl).1
  have hc : renoCaTwo.cwnd = 2 := rfl
  rw [h, hc]
  norm_num [truncQ]

/-- C5 counterexample: one `timeout_event()` on a fresh Conservative session
appends to `cwnd_history` but not to `throughput_history`, so the five
histories do not all receive one entry per window-mutating event and do not
stay equally long; and `reset()` removes previously recorded entries. -/
theorem C5_counterexample_history_lengths :
    (((TCPTahoe.init CongestionAlgorithm.TAHOE).timeout_event 0).cwnd_history.length = 1 ∧
     ((TCPTahoe.init CongestionAlgorithm.TAHOE).timeout_event 0).throughput_history.length
       = 0) ∧
    ((TCPTahoe.init CongestionAlgorithm.TAHOE).send_packet 0).cwnd_history.length = 1 ∧
    ((TCPTahoe.init CongestionAlgorithm.TAHOE).send_packet 0).reset.cwnd_history.length
      = 0 := by
  refine ⟨⟨?_, ?_⟩, ?_, ?_⟩ <;>
    simp [TCPTahoe.timeout_event, TCPTahoe.init, TCPTahoe.send_packet, TCPTahoe.reset,
      TCPTahoe.push_window_history, TCPTahoe.tahoe_congestion_control,
      TCPTahoe.adaptive_congestion_response]

/-- C6: for every prior state, `set_algorithm(a)` sets `cwnd = 1`,
`ssthresh = 65535`, phase `SLOW_START`, `duplicate_ack_count = 0` and empties
all five history sequences, while leaving `rtt`, `timeout`,
`packet_loss_rate`, `network_utilization` and `queue_delay` unchanged. -/
theorem C6_set_algorithm_resets (s : TCPTahoe) (a : CongestionAlgorithm) :
    (s.set_algorithm a).cwnd = 1 ∧
    (s.set_algorithm a).ssthresh = 65535 ∧
    (s.set_algorithm a).current_state = TCPState.SLOW_START ∧
    (s.set_algorithm a).duplicate_ack_count = 0 ∧
    (s.set_algorithm a).algorithm = a ∧
    (s.set_algorithm a).cwnd_history = [] ∧
    (s.set_algorithm a).ssthresh_history = [] ∧
    (s.set_algorithm a).state_history = [] ∧
    (s.set_algorithm a).throughput_history = [] ∧
    (s.set_algorithm a).rtt_history = [] ∧
    (s.set_algorithm a).rtt = s.rtt ∧
    (s.set_algorithm a).timeout = s.timeout ∧
    (s.set_algorithm a).packet_loss_rate = s.packet_loss_rate ∧
    (s.set_algorithm a).network_utilization = s.network_utilization ∧
    (s.set_algorithm a).queue_delay = s.queue_delay :=
  ⟨rfl, rfl, rfl, rfl, rfl, rfl, rfl, rfl, rfl, rfl, rfl, rfl, rfl, rfl, rfl⟩

/-- C7: the instantaneous throughput equals
`(cwnd × 1500 × 8) / (rtt × 1000)` Mbps when `rtt ≠ 0` and `0` when
`rtt = 0` — the computation is total and never divides by zero — and every
`send_packet()` appends exactly this value to `throughput_history`. -/
theorem C7_throughput_total (s : TCPTahoe) (now : ℤ) :
    s.calculate_throughput =
      (if s.rtt = 0 then 0 else ((s.cwnd : ℚ) * 1500 * 8) / ((s.rtt : ℚ) * 1000)) ∧
    (s.send_packet now).throughput_history =
      s.throughput_history ++ [s.calculate_throughput] := by
  refine ⟨rfl, ?_⟩
  simp only [TCPTahoe.send_packet]
  cases halgo : s.algorithm
  case TAHOE =>
    rw [TCPTahoe.adaptive_throughput_history,
      (TCPTahoe.tahoe_cc_frame s.push_window_history).2.2.2.2.2.2.1,
      TCPTahoe.push_throughput_history]
  case RENO =>
    rw [TCPTahoe.adaptive_throughput_history,
      (TCPTahoe.reno_cc_frame s.push_window_history).2.2.2.2.2.2.1,
      TCPTahoe.push_throughput_history]
  case CUBIC =>
    rw [TCPTahoe.adaptive_throughput_history,
      (TCPTahoe.cubic_cc_frame s.push_window_history now).2.2.2.2.2.2.1,
      TCPTahoe.push_throughput_history]
  case BBR =>
    rw [TCPTahoe.adaptive_throughput_history,
      (TCPTahoe.bbr_cc_frame s.push_window_history).2.2.2.2.2.2.1,
      TCPTahoe.push_throughput_history]

/-- C8 counterexample: with loss rate 0.06 under the Conservative (TAHOE)
variant, a send leaves `cubic_beta` at 0.7 — the adaptive-tuning branch that
sets it to 0.8 is gated on the CUBIC variant, contrary to the claim's
"for every state". -/
theorem C8_counterexample_beta_not_set :
    (tahoeLossy.send_packet 0).cubic_beta = 7/10 ∧ ((7 : ℚ)/10) ≠ 8/10 := by
  constructor
  · simp [tahoeLossy, TCPTahoe.send_packet, TCPTahoe.init,
      TCPTahoe.set_network_conditions, TCPTahoe.push_window_history,
      TCPTahoe.tahoe_congestion_control, TCPTahoe.adaptive_congestion_response,
      TCPTahoe.calculate_throughput]
  · norm_num

/-- C8 amended: adaptive tuning runs after every `send_packet()`; it always
recomputes `timeout = rtt × 2`, but it adjusts `cubic_beta` (to 0.8 when
`packet_loss_rate > 0.05`, to 0.7 when `packet_loss_rate < 0.01`, unchanged
in between) only when the active algorithm is CUBIC; under every other
variant `cubic_beta` is left unchanged. -/
theorem C8_adaptive_tuning_amended (s : TCPTahoe) (now : ℤ) :
    (s.send_packet now).timeout = s.rtt * 2 ∧
    (s.send_packet now).cubic_beta =
      (if s.algorithm = CongestionAlgorithm.CUBIC then
        (if s.packet_loss_rate > 5/100 then 8/10
         else if s.packet_loss_rate < 1/100 then 7/10
         else s.cubic_beta)
       else s.cubic_beta) := by
  simp only [TCPTahoe.send_packet]
  cases halgo : s.algorithm
  case TAHOE =>
    obtain ⟨f1, f2, f3, f4, f5, f6, f7, f8⟩ := TCPTahoe.tahoe_cc_frame s.push_window_history
    rw [TCPTahoe.adaptive_timeout, TCPTahoe.adaptive_cubic_beta, f1, f2, f3, f4]
    simp [halgo]
  case RENO =>
    obtain ⟨f1, f2, f3, f4, f5, f6, f7, f8⟩ := TCPTahoe.reno_cc_frame s.push_window_history
    rw [TCPTahoe.adaptive_timeout, TCPTahoe.adaptive_cubic_beta, f1, f2, f3, f4]
    simp [halgo]
  case CUBIC =>
    obtain ⟨f1, f2, f3, f4, f5, f6, f7, f8⟩ :=
      TCPTahoe.cubic_cc_frame s.push_window_history now
    rw [TCPTahoe.adaptive_timeout, TCPTahoe.adaptive_cubic_beta, f1, f2, f3, f4]
    simp [halgo]
  case BBR =>
    obtain ⟨f1, f2, f3, f4, f5, f6, f7, f8⟩ := TCPTahoe.bbr_cc_frame s.push_window_history
    rw [TCPTahoe.adaptive_timeout, TCPTahoe.adaptive_cubic_beta, f1, f2, f3, f4]
    simp [halgo]

namespace TCPTahoe

lemma timeout_rtt (s : TCPTahoe) (now : ℤ) : (s.timeout_event now).rtt = s.rtt := by
  simp only [timeout_event]
  cases halgo : s.algorithm <;> rfl

lemma timeout_util (s : TCPTahoe) (now : ℤ) :
    (s.timeout_event now).network_utilization = s.network_utilization := by
  simp only [timeout_event]
  cases halgo : s.algorithm <;> rfl

lemma timeout_cwnd_history (s : TCPTahoe) (now : ℤ) :
    (s.timeout_event now).cwnd_history = s.cwnd_history ++ [s.cwnd] := by
  simp only [timeout_event]
  cases halgo : s.algorithm <;> rfl

end TCPTahoe

/-- C9 (viewing the draw as the injected random input): the randomized
stimulus is a function of the state, the uniform draw and the clock; it
invokes `timeout_event` — observable through the appended `cwnd_history`
entry — exactly when the draw is below `packet_loss_rate`, and it inflates
`rtt` by the factor `(1 + network_utilization)` exactly when
`network_utilization > 0.7`. -/
theorem C9_simulate_model_characterization (s : TCPTahoe) (u : ℚ) (now : ℤ) :
    ((s.simulate_network_congestion u now).rtt =
      if s.network_utilization > 7/10 then
        truncQ ((s.rtt : ℚ) * (1 + s.network_utilization))
      else s.rtt) ∧
    ((s.simulate_network_congestion u now).cwnd_history ≠ s.cwnd_history ↔
      u < s.packet_loss_rate) := by
  constructor
  · simp only [TCPTahoe.simulate_network_congestion]
    split_ifs with hl hu hu <;>
      simp_all [TCPTahoe.timeout_rtt, TCPTahoe.timeout_util]
  · simp only [TCPTahoe.simulate_network_congestion]
    split_ifs with hl hu hu <;>
      simp_all [TCPTahoe.timeout_cwnd_history]

/-- C4: under RENO, from any state with `cwnd = 16` and no pending duplicate
acks, three `duplicate_ack()` calls leave the scalar session state unchanged
except that the third sets `ssthresh = 8`, `cwnd = 11` and phase
`FAST_RECOVERY` (recording the one pre-event history entry and the reduction
timestamp); a subsequent `receive_ack(x)`, for any `x`, then yields
`cwnd = 8`, phase `CONGESTION_AVOIDANCE` and `duplicate_ack_count = 0`. -/
theorem C4_fast_recovery (s : TCPTahoe) (n1 n2 n3 x : ℤ)
    (halgo : s.algorithm = CongestionAlgorithm.RENO) (hcw : s.cwnd = 16)
    (hd : s.duplicate_ack_count = 0) :
    (((s.duplicate_ack n1).duplicate_ack n2).duplicate_ack n3).cwnd = 11 ∧
    (((s.duplicate_ack n1).duplicate_ack n2).duplicate_ack n3).ssthresh = 8 ∧
    (((s.duplicate_ack n1).duplicate_ack n2).duplicate_ack n3).current_state =
      TCPState.FAST_RECOVERY ∧
    (((s.duplicate_ack n1).duplicate_ack n2).duplicate_ack n3).duplicate_ack_count = 0 ∧
    (((s.duplicate_ack n1).duplicate_ack n2).duplicate_ack n3).rtt = s.rtt ∧
    (((s.duplicate_ack n1).duplicate_ack n2).duplicate_ack n3).timeout = s.timeout ∧
    (((s.duplicate_ack n1).duplicate_ack n2).duplicate_ack n3).algorithm = s.algorithm ∧
    (((s.duplicate_ack n1).duplicate_ack n2).duplicate_ack n3).cubic_beta =
      s.cubic_beta ∧
    (((s.duplicate_ack n1).duplicate_ack n2).duplicate_ack n3).cubic_c = s.cubic_c ∧
    (((s.duplicate_ack n1).duplicate_ack n2).duplicate_ack n3).bbr_min_rtt =
      s.bbr_min_rtt ∧
    (((s.duplicate_ack n1).duplicate_ack n2).duplicate_ack n3).bbr_max_bandwidth =
      s.bbr_max_bandwidth ∧
    (((s.duplicate_ack n1).duplicate_ack n2).duplicate_ack n3).packet_loss_rate =
      s.packet_loss_rate ∧
    (((s.duplicate_ack n1).duplicate_ack n2).duplicate_ack n3).network_utilization =
      s.network_utilization ∧
    (((s.duplicate_ack n1).duplicate_ack n2).duplicate_ack n3).queue_delay =
      s.queue_delay ∧
    (((s.duplicate_ack n1).duplicate_ack n2).duplicate_ack n3).last_cwnd_reduction_time
      = n3 ∧
    (((s.duplicate_ack n1).duplicate_ack n2).duplicate_ack n3).cwnd_history =
      s.cwnd_history ++ [16] ∧
    (((s.duplicate_ack n1).duplicate_ack n2).duplicate_ack n3).ssthresh_history =
      s.ssthresh_history ++ [s.ssthresh] ∧
    (((s.duplicate_ack n1).duplicate_ack n2).duplicate_ack n3).state_history =
      s.state_history ++ ["Fast Retransmit"] ∧
    (((s.duplicate_ack n1).duplicate_ack n2).duplicate_ack n3).throughput_history =
      s.throughput_history ∧
    (((s.duplicate_ack n1).duplicate_ack n2).duplicate_ack n3).rtt_history =
      s.rtt_history ∧
    ((((s.duplicate_ack n1).duplicate_ack n2).duplicate_ack n3).receive_ack x).cwnd
      = 8 ∧
    ((((s.duplicate_ack n1).duplicate_ack n2).duplicate_ack n3).receive_ack x).current_state =
      TCPState.CONGESTION_AVOIDANCE ∧
    ((((s.duplicate_ack n1).duplicate_ack n2).duplicate_ack n3).receive_ack x).duplicate_ack_count =
      0 := by
  have e1 : s.duplicate_ack n1 =
      { s with duplicate_ack_count := s.duplicate_ack_count + 1 } :=
    TCPTahoe.dup_nofire s n1 (by omega)
  have e2 : (s.duplicate_ack n1).duplicate_ack n2 =
      { s with duplicate_ack_count := s.duplicate_ack_count + 1 + 1 } := by
    rw [e1, TCPTahoe.dup_nofire _ n2 (by simp; omega)]
  rw [e2]
  norm_num [TCPTahoe.duplicate_ack, TCPTahoe.receive_ack, halgo, hd, hcw, Int.tdiv]

theorem C4_fast_recovery_witness :
    (((renoSixteen.duplicate_ack 0).duplicate_ack 0).duplicate_ack 0).cwnd = 11 ∧
    (((renoSixteen.duplicate_ack 0).duplicate_ack 0).duplicate_ack 0).ssthresh = 8 ∧
    (((renoSixteen.duplicate_ack 0).duplicate_ack 0).duplicate_ack 0).current_state =
      TCPState.FAST_RECOVERY ∧
    ((((renoSixteen.duplicate_ack 0).duplicate_ack 0).duplicate_ack 0).receive_ack 5).cwnd
      = 8 := by
  obtain ⟨g1, g2, g3, g4, g5, g6, g7, g8, g9, g10, g11, g12, g13, g14, g15, g16, g17,
    g18, g19, g20, g21, g22, g23⟩ := C4_fast_recovery renoSixteen 0 0 0 5 rfl rfl rfl
  exact ⟨g1, g2, g3, g21⟩

/-- C10: in every reachable CUBIC congestion-avoidance state (`cubic_beta`
is 0.7 or 0.8, `cubic_c` is the constructor value 0.4, `cwnd ≥ 1`), the
target `cubic_c · t³ + cwnd/cubic_beta` strictly exceeds `cwnd` for every
elapsed time `t ≥ 0`, so a `send_packet()` always takes the
`min(target, cwnd + 1)` branch and the TCP-friendly fallback is
unreachable. -/
theorem C10_cubic_min_branch (s : TCPTahoe) (now : ℤ)
    (halgo : s.algorithm = CongestionAlgorithm.CUBIC)
    (hst : s.current_state = TCPState.CONGESTION_AVOIDANCE)
    (hβ : s.cubic_beta = 7/10 ∨ s.cubic_beta = 8/10)
    (hc : s.cubic_c = 2/5)
    (h1 : 1 ≤ s.cwnd)
    (ht : s.last_cwnd_reduction_time ≤ now) :
    (s.cwnd : ℚ) <
      s.cubic_c * (((now - s.last_cwnd_reduction_time : ℤ) : ℚ) / 1000) ^ 3 +
        (s.cwnd : ℚ) / s.cubic_beta ∧
    (s.send_packet now).cwnd =
      truncQ (min
        (s.cubic_c * (((now - s.last_cwnd_reduction_time : ℤ) : ℚ) / 1000) ^ 3 +
          (s.cwnd : ℚ) / s.cubic_beta)
        ((s.cwnd : ℚ) + 1)) := by
  have h := TCPTahoe.send_CA_cubic s now hst halgo hβ (by rw [hc]; norm_num) h1 ht
  exact ⟨h.1, h.2.1⟩

theorem C10_cubic_min_branch_witness :
    (cubicCa.cwnd : ℚ) <
      cubicCa.cubic_c * (((1000 - cubicCa.last_cwnd_reduction_time : ℤ) : ℚ) / 1000) ^ 3 +
        (cubicCa.cwnd : ℚ) / cubicCa.cubic_beta ∧
    (cubicCa.send_packet 1000).cwnd =
      truncQ (min
        (cubicCa.cubic_c * (((1000 - cubicCa.last_cwnd_reduction_time : ℤ) : ℚ) / 1000) ^ 3 +
          (cubicCa.cwnd : ℚ) / cubicCa.cubic_beta)
        ((cubicCa.cwnd : ℚ) + 1)) :=
  C10_cubic_min_branch cubicCa 1000 rfl rfl
    (Or.inl (by norm_num [cubicCa, TCPTahoe.init]))
    (by norm_num [cubicCa, TCPTahoe.init])
    (by norm_num [cubicCa, TCPTahoe.init])
    (by norm_num [cubicCa, TCPTahoe.init])

/-- C3 counterexample: under RENO from `cwnd = 1`, `ssthresh = 8`, SlowStart,
the fourth `send_packet()` leaves `cwnd = 8` (the fractional increment
`1/8` truncates away in the integer field), not 9 as the claim states. -/
theorem C3_counterexample_reno_fourth_send :
    ((((renoSsEight.send_packet 0).send_packet 0).send_packet 0).send_packet 0).cwnd
      = 8 ∧
    ((((renoSsEight.send_packet 0).send_packet 0).send_packet 0).send_packet 0).cwnd
      ≠ 9 := by
  norm_num [renoSsEight, TCPTahoe.init, TCPTahoe.send_packet,
    TCPTahoe.push_window_history, TCPTahoe.reno_congestion_control,
    TCPTahoe.adaptive_congestion_response, TCPTahoe.calculate_throughput, truncQ,
    show ¬ (TCPState.CONGESTION_AVOIDANCE = TCPState.SLOW_START) from by decide]

/-- C3 amended: from `cwnd = 1`, `ssthresh = 8`, SlowStart, four consecutive
`send_packet()` calls give the `cwnd` sequence 2, 4, 8, 9 under the
Conservative (TAHOE) variant, and under CubicGrowth whenever `cubic_beta` is
one of its two reachable values, `cubic_c` is the constructor value and the
fourth send is not before the last reduction; under AimdRecovery (RENO) the
sequence is 2, 4, 8, 8 — the fourth, fractional increment truncates to a
no-op in the integer window.  In all three variants the phase becomes
CongestionAvoidance exactly at the third call, where `cwnd` first
reaches 8. -/
theorem C3_slow_start_doubling_amended (s : TCPTahoe) (n1 n2 n3 n4 : ℤ)
    (hcw : s.cwnd = 1) (hss : s.ssthresh = 8)
    (hst : s.current_state = TCPState.SLOW_START) :
    (s.algorithm = CongestionAlgorithm.TAHOE →
      (s.send_packet n1).cwnd = 2 ∧
      (s.send_packet n1).current_state = TCPState.SLOW_START ∧
      ((s.send_packet n1).send_packet n2).cwnd = 4 ∧
      ((s.send_packet n1).send_packet n2).current_state = TCPState.SLOW_START ∧
      (((s.send_packet n1).send_packet n2).send_packet n3).cwnd = 8 ∧
      (((s.send_packet n1).send_packet n2).send_packet n3).current_state =
        TCPState.CONGESTION_AVOIDANCE ∧
      ((((s.send_packet n1).send_packet n2).send_packet n3).send_packet n4).cwnd = 9 ∧
      ((((s.send_packet n1).send_packet n2).send_packet n3).send_packet n4).current_state
        = TCPState.CONGESTION_AVOIDANCE) ∧
    (s.algorithm = CongestionAlgorithm.RENO →
      (s.send_packet n1).cwnd = 2 ∧
      (s.send_packet n1).current_state = TCPState.SLOW_START ∧
      ((s.send_packet n1).send_packet n2).cwnd = 4 ∧
      ((s.send_packet n1).send_packet n2).current_state = TCPState.SLOW_START ∧
      (((s.send_packet n1).send_packet n2).send_packet n3).cwnd = 8 ∧
      (((s.send_packet n1).send_packet n2).send_packet n3).current_state =
        TCPState.CONGESTION_AVOIDANCE ∧
      ((((s.send_packet n1).send_packet n2).send_packet n3).send_packet n4).cwnd = 8 ∧
      ((((s.send_packet n1).send_packet n2).send_packet n3).send_packet n4).current_state
        = TCPState.CONGESTION_AVOIDANCE) ∧
    (s.algorithm = CongestionAlgorithm.CUBIC →
      (s.cubic_beta = 7/10 ∨ s.cubic_beta = 8/10) →
      s.cubic_c = 2/5 →
      s.last_cwnd_reduction_time ≤ n4 →
      (s.send_packet n1).cwnd = 2 ∧
      (s.send_packet n1).current_state = TCPState.SLOW_START ∧
      ((s.send_packet n1).send_packet n2).cwnd = 4 ∧
      ((s.send_packet n1).send_packet n2).current_state = TCPState.SLOW_START ∧
      (((s.send_packet n1).send_packet n2).send_packet n3).cwnd = 8 ∧
      (((s.send_packet n1).send_packet n2).send_packet n3).current_state =
        TCPState.CONGESTION_AVOIDANCE ∧
      ((((s.send_packet n1).send_packet n2).send_packet n3).send_packet n4).cwnd = 9 ∧
      ((((s.send_packet n1).send_packet n2).send_packet n3).send_packet n4).current_state
        = TCPState.CONGESTION_AVOIDANCE) := by
  refine ⟨?_, ?_, ?_⟩
  · intro ha
    obtain ⟨a1, a2, a3, a4, a5, a6⟩ := TCPTahoe.send_SS s n1 hst (Or.inl ha)
    have h1cw : (s.send_packet n1).cwnd = 2 := by simp [a1, hcw]
    have h1ss : (s.send_packet n1).ssthresh = 8 := by simp [a2, hss]
    have h1st : (s.send_packet n1).current_state = TCPState.SLOW_START := by
      rw [a3, hcw, hss]; norm_num
    have h1al : (s.send_packet n1).algorithm = CongestionAlgorithm.TAHOE := by
      rw [a4, ha]
    obtain ⟨b1, b2, b3, b4, b5, b6⟩ :=
      TCPTahoe.send_SS (s.send_packet n1) n2 h1st (Or.inl h1al)
    have h2cw : ((s.send_packet n1).send_packet n2).cwnd = 4 := by simp [b1, h1cw]
    have h2ss : ((s.send_packet n1).send_packet n2).ssthresh = 8 := by simp [b2, h1ss]
    have h2st : ((s.send_packet n1).send_packet n2).current_state =
        TCPState.SLOW_START := by
      rw [b3, h1cw, h1ss]; norm_num
    have h2al : ((s.send_packet n1).send_packet n2).algorithm =
        CongestionAlgorithm.TAHOE := by simp [b4, h1al]
    obtain ⟨c1, c2, c3, c4, c5, c6⟩ :=
      TCPTahoe.send_SS ((s.send_packet n1).send_packet n2) n3 h2st (Or.inl h2al)
    have h3cw : (((s.send_packet n1).send_packet n2).send_packet n3).cwnd = 8 := by
      simp [c1, h2cw]
    have h3st : (((s.send_packet n1).send_packet n2).send_packet n3).current_state =
        TCPState.CONGESTION_AVOIDANCE := by
      rw [c3, h2cw, h2ss]; norm_num
    have h3al : (((s.send_packet n1).send_packet n2).send_packet n3).algorithm =
        CongestionAlgorithm.TAHOE := by simp [c4, h2al]
    obtain ⟨d1, d2, d3, d4⟩ :=
      TCPTahoe.send_CA_tahoe (((s.send_packet n1).send_packet n2).send_packet n3) n4
        h3st h3al
    exact ⟨h1cw, h1st, h2cw, h2st, h3cw, h3st, by simp [d1, h3cw], d3⟩
  · intro ha
    obtain ⟨a1, a2, a3, a4, a5, a6⟩ := TCPTahoe.send_SS s n1 hst (Or.inr (Or.inl ha))
    have h1cw : (s.send_packet n1).cwnd = 2 := by simp [a1, hcw]
    have h1ss : (s.send_packet n1).ssthresh = 8 := by simp [a2, hss]
    have h1st : (s.send_packet n1).current_state = TCPState.SLOW_START := by
      rw [a3, hcw, hss]; norm_num
    have h1al : (s.send_packet n1).algorithm = CongestionAlgorithm.RENO := by
      rw [a4, ha]
    obtain ⟨b1, b2, b3, b4, b5, b6⟩ :=
      TCPTahoe.send_SS (s.send_packet n1) n2 h1st (Or.inr (Or.inl h1al))
    have h2cw : ((s.send_packet n1).send_packet n2).cwnd = 4 := by simp [b1, h1cw]
    have h2ss : ((s.send_packet n1).send_packet n2).ssthresh = 8 := by simp [b2, h1ss]
    have h2st : ((s.send_packet n1).send_packet n2).current_state =
        TCPState.SLOW_START := by
      rw [b3, h1cw, h1ss]; norm_num
    have h2al : ((s.send_packet n1).send_packet n2).algorithm =
        CongestionAlgorithm.RENO := by simp [b4, h1al]
    obtain ⟨c1, c2, c3, c4, c5, c6⟩ :=
      TCPTahoe.send_SS ((s.send_packet n1).send_packet n2) n3 h2st
        (Or.inr (Or.inl h2al))
    have h3cw : (((s.send_packet n1).send_packet n2).send_packet n3).cwnd = 8 := by
      simp [c1, h2cw]
    have h3st : (((s.send_packet n1).send_packet n2).send_packet n3).current_state =
        TCPState.CONGESTION_AVOIDANCE := by
      rw [c3, h2cw, h2ss]; norm_num
    have h3al : (((s.send_packet n1).send_packet n2).send_packet n3).algorithm =
        CongestionAlgorithm.RENO := by simp [c4, h2al]
    obtain ⟨d1, d2, d3, d4⟩ :=
      TCPTahoe.send_CA_reno (((s.send_packet n1).send_packet n2).send_packet n3) n4
        h3st h3al
    refine ⟨h1cw, h1st, h2cw, h2st, h3cw, h3st, ?_, d3⟩
    rw [d1, h3cw]
    norm_num [truncQ]
  · intro ha hβ hc ht
    obtain ⟨a1, a2, a3, a4, a5, a6⟩ :=
      TCPTahoe.send_SS s n1 hst (Or.inr (Or.inr ha))
    have h1cw : (s.send_packet n1).cwnd = 2 := by simp [a1, hcw]
    have h1ss : (s.send_packet n1).ssthresh = 8 := by simp [a2, hss]
    have h1st : (s.send_packet n1).current_state = TCPState.SLOW_START := by
      rw [a3, hcw, hss]; norm_num
    have h1al : (s.send_packet n1).algorithm = CongestionAlgorithm.CUBIC := by
      rw [a4, ha]
    have h1c : (s.send_packet n1).cubic_c = 2/5 := by simp [a5, hc]
    have h1t : (s.send_packet n1).last_cwnd_reduction_time ≤ n4 := by rw [a6]; exact ht
    have h1β : (s.send_packet n1).cubic_beta = 7/10 ∨
        (s.send_packet n1).cubic_beta = 8/10 := by
      rcases TCPTahoe.send_beta_cases s n1 with hb | hb | hb
      · rw [hb]; exact hβ
      · exact Or.inl hb
      · exact Or.inr hb
    obtain ⟨b1, b2, b3, b4, b5, b6⟩ :=
      TCPTahoe.send_SS (s.send_packet n1) n2 h1st (Or.inr (Or.inr h1al))
    have h2cw : ((s.send_packet n1).send_packet n2).cwnd = 4 := by simp [b1, h1cw]
    have h2ss : ((s.send_packet n1).send_packet n2).ssthresh = 8 := by simp [b2, h1ss]
    have h2st : ((s.send_packet n1).send_packet n2).current_state =
        TCPState.SLOW_START := by
      rw [b3, h1cw, h1ss]; norm_num
    have h2al : ((s.send_packet n1).send_packet n2).algorithm =
        CongestionAlgorithm.CUBIC := by simp [b4, h1al]
    have h2c : ((s.send_packet n1).send_packet n2).cubic_c = 2/5 := by simp [b5, h1c]
    have h2t : ((s.send_packet n1).send_packet n2).last_cwnd_reduction_time ≤ n4 := by
      rw [b6]; exact h1t
    have h2β : ((s.send_packet n1).send_packet n2).cubic_beta = 7/10 ∨
        ((s.send_packet n1).send_packet n2).cubic_beta = 8/10 := by
      rcases TCPTahoe.send_beta_cases (s.send_packet n1) n2 with hb | hb | hb
      · rw [hb]; exact h1β
      · exact Or.inl hb
      · exact Or.inr hb
    obtain ⟨c1, c2, c3, c4, c5, c6⟩ :=
      TCPTahoe.send_SS ((s.send_packet n1).send_packet n2) n3 h2st
        (Or.inr (Or.inr h2al))
    have h3cw : (((s.send_packet n1).send_packet n2).send_packet n3).cwnd = 8 := by
      simp [c1, h2cw]
    have h3st : (((s.send_packet n1).send_packet n2).send_packet n3).current_state =
        TCPState.CONGESTION_AVOIDANCE := by
      rw [c3, h2cw, h2ss]; norm_num
    have h3al : (((s.send_packet n1).send_packet n2).send_packet n3).algorithm =
        CongestionAlgorithm.CUBIC := by simp [c4, h2al]
    have h3c : (((s.send_packet n1).send_packet n2).send_packet n3).cubic_c = 2/5 := by
      rw [c5, h2c]
    have h3t : (((s.send_packet n1).send_packet n2).send_packet n3).last_cwnd_reduction_time ≤
        n4 := by rw [c6]; exact h2t
    have h3β : (((s.send_packet n1).send_packet n2).send_packet n3).cubic_beta = 7/10 ∨
        (((s.send_packet n1).send_packet n2).send_packet n3).cubic_beta = 8/10 := by
      rcases TCPTahoe.send_beta_cases ((s.send_packet n1).send_packet n2) n3
        with hb | hb | hb
      · rw [hb]; exact h2β
      · exact Or.inl hb
      · exact Or.inr hb
    obtain ⟨d1, d2, d3, d4, d5⟩ :=
      TCPTahoe.send_CA_cubic (((s.send_packet n1).send_packet n2).send_packet n3) n4
        h3st h3al h3β (by rw [h3c]; norm_num) (by rw [h3cw]; norm_num) h3t
    refine ⟨h1cw, h1st, h2cw, h2st, h3cw, h3st, ?_, d4⟩
    rw [d2, h3cw]
    have htq : (0 : ℚ) ≤
        ((n4 - (((s.send_packet n1).send_packet n2).send_packet n3).last_cwnd_reduction_time : ℤ) : ℚ) /
          1000 := by
      have hnn : (0 : ℚ) ≤
          ((n4 - (((s.send_packet n1).send_packet n2).send_packet n3).last_cwnd_reduction_time : ℤ) : ℚ) := by
        exact_mod_cast Int.sub_nonneg.mpr h3t
      linarith
    have htarget : (9 : ℚ) ≤
        (((s.send_packet n1).send_packet n2).send_packet n3).cubic_c *
          (((n4 - (((s.send_packet n1).send_packet n2).send_packet n3).last_cwnd_reduction_time : ℤ) : ℚ) /
            1000) ^ 3 +
          ((8 : ℤ) : ℚ) / (((s.send_packet n1).send_packet n2).send_packet n3).cubic_beta := by
      have hcube : (0 : ℚ) ≤
          (((n4 - (((s.send_packet n1).send_packet n2).send_packet n3).last_cwnd_reduction_time : ℤ) : ℚ) /
            1000) ^ 3 := pow_nonneg htq 3
      have h8 : ((8 : ℤ) : ℚ) = 8 := by norm_num
      rw [h3c, h8]
      rcases h3β with hb | hb <;> rw [hb]
      · have hdiv : (8 : ℚ) / (7/10) = 80/7 := by norm_num
        rw [hdiv]; linarith [hcube]
      · have hdiv : (8 : ℚ) / (8/10) = 10 := by norm_num
        rw [hdiv]; linarith [hcube]
    rw [min_eq_right]
    · norm_num [truncQ]
    · push_cast
      push_cast at htarget
      nlinarith [htarget]

namespace TCPTahoe

lemma send_histories (s : TCPTahoe) (now : ℤ) (h1 : 1 ≤ s.cwnd)
    (h3 : s.bbr_max_bandwidth = 10) (h4 : s.bbr_min_rtt = 100)
    (h5 : s.current_state ≠ TCPState.TIMEOUT) :
    ∃ lbl,
      (s.send_packet now).cwnd_history = s.cwnd_history ++ [s.cwnd] ∧
      (s.send_packet now).ssthresh_history = s.ssthresh_history ++ [s.ssthresh] ∧
      (s.send_packet now).state_history = s.state_history ++ [lbl] ∧
      (s.send_packet now).throughput_history =
        s.throughput_history ++ [s.calculate_throughput] ∧
      (s.send_packet now).rtt_history = s.rtt_history ++ [s.rtt] := by
  simp only [send_packet]
  cases halgo : s.algorithm
  case TAHOE =>
    obtain ⟨g1, g2, g3, g4, g5, g6, g7, g8, g9, lbl, g10⟩ :=
      tahoe_cc_spec s.push_window_history (by simpa using h1) (by simpa using h5)
    exact ⟨lbl, by simp [g6], by simp [g7], by simp [g10], by simp [g8], by simp [g9]⟩
  case RENO =>
    obtain ⟨g1, g2, g3, g4, g5, g6, g7, g8, g9, lbl, g10⟩ :=
      reno_cc_spec s.push_window_history (by simpa using h1) (by simpa using h5)
    exact ⟨lbl, by simp [g6], by simp [g7], by simp [g10], by simp [g8], by simp [g9]⟩
  case CUBIC =>
    obtain ⟨g1, g2, g3, g4, g5, g6, g7, g8, g9, lbl, g10⟩ :=
      cubic_cc_spec s.push_window_history now (by simpa using h1) (by simpa using h5)
    exact ⟨lbl, by simp [g6], by simp [g7], by simp [g10], by simp [g8], by simp [g9]⟩
  case BBR =>
    obtain ⟨g1, g2, g3, g4, g5, g6, g7, g8, g9, lbl, g10⟩ :=
      bbr_cc_spec s.push_window_history (by simpa using h1) (by simpa using h3)
        (by simpa using h4)
    exact ⟨lbl, by simp [g6], by simp [g7], by simp [g10], by simp [g8], by simp [g9]⟩

lemma timeout_histories (s : TCPTahoe) (now : ℤ) :
    ∃ lbl,
      (s.timeout_event now).cwnd_history = s.cwnd_history ++ [s.cwnd] ∧
      (s.timeout_event now).ssthresh_history = s.ssthresh_history ++ [s.ssthresh] ∧
      (s.timeout_event now).state_history = s.state_history ++ [lbl] ∧
      (s.timeout_event now).throughput_history = s.throughput_history ∧
      (s.timeout_event now).rtt_history = s.rtt_history := by
  simp only [timeout_event]
  cases halgo : s.algorithm <;> exact ⟨_, rfl, rfl, rfl, rfl, rfl⟩

lemma dup_fire_histories (s : TCPTahoe) (now : ℤ)
    (hf : 3 ≤ s.duplicate_ack_count + 1) :
    ∃ lbl,
      (s.duplicate_ack now).cwnd_history = s.cwnd_history ++ [s.cwnd] ∧
      (s.duplicate_ack now).ssthresh_history = s.ssthresh_history ++ [s.ssthresh] ∧
      (s.duplicate_ack now).state_history = s.state_history ++ [lbl] ∧
      (s.duplicate_ack now).throughput_history = s.throughput_history ∧
      (s.duplicate_ack now).rtt_history = s.rtt_history := by
  simp only [duplicate_ack, ge_iff_le, if_pos hf]
  cases halgo : s.algorithm <;> exact ⟨_, rfl, rfl, rfl, rfl, rfl⟩

lemma receive_histories (s : TCPTahoe) (n : ℤ) :
    (s.receive_ack n).cwnd_history = s.cwnd_history ∧
    (s.receive_ack n).ssthresh_history = s.ssthresh_history ∧
    (s.receive_ack n).state_history = s.state_history ∧
    (s.receive_ack n).throughput_history = s.throughput_history ∧
    (s.receive_ack n).rtt_history = s.rtt_history := by
  simp only [receive_ack]
  split_ifs <;> exact ⟨rfl, rfl, rfl, rfl, rfl⟩

end TCPTahoe

/-- C5 amended: in every reachable state, `send_packet()` appends exactly one
entry to each of the five history sequences; `timeout_event()` and a
threshold-reaching `duplicate_ack()` append exactly one entry to
`cwnd_history`, `ssthresh_history` and `state_history` but none to
`throughput_history` or `rtt_history`; a below-threshold `duplicate_ack()`,
`receive_ack()` and `set_network_conditions()` leave all five unchanged;
consequently `cwnd_history`, `ssthresh_history` and `state_history` always
have equal length, and `throughput_history` and `rtt_history` always have
equal length.  No event operation removes or rewrites an existing entry
(each new history extends the old one); only `reset` and `set_algorithm`
clear the histories. -/
theorem C5_history_append_amended (a : CongestionAlgorithm) (ops : List Op) :
    (∀ now, ∃ lbl,
      ((reachable a ops).send_packet now).cwnd_history =
        (reachable a ops).cwnd_history ++ [(reachable a ops).cwnd] ∧
      ((reachable a ops).send_packet now).ssthresh_history =
        (reachable a ops).ssthresh_history ++ [(reachable a ops).ssthresh] ∧
      ((reachable a ops).send_packet now).state_history =
        (reachable a ops).state_history ++ [lbl] ∧
      ((reachable a ops).send_packet now).throughput_history =
        (reachable a ops).throughput_history ++ [(reachable a ops).calculate_throughput] ∧
      ((reachable a ops).send_packet now).rtt_history =
        (reachable a ops).rtt_history ++ [(reachable a ops).rtt]) ∧
    (∀ now, ∃ lbl,
      ((reachable a ops).timeout_event now).cwnd_history =
        (reachable a ops).cwnd_history ++ [(reachable a ops).cwnd] ∧
      ((reachable a ops).timeout_event now).ssthresh_history =
        (reachable a ops).ssthresh_history ++ [(reachable a ops).ssthresh] ∧
      ((reachable a ops).timeout_event now).state_history =
        (reachable a ops).state_history ++ [lbl] ∧
      ((reachable a ops).timeout_event now).throughput_history =
        (reachable a ops).throughput_history ∧
      ((reachable a ops).timeout_event now).rtt_history =
        (reachable a ops).rtt_history) ∧
    (∀ now, 3 ≤ (reachable a ops).duplicate_ack_count + 1 → ∃ lbl,
      ((reachable a ops).duplicate_ack now).cwnd_history =
        (reachable a ops).cwnd_history ++ [(reachable a ops).cwnd] ∧
      ((reachable a ops).duplicate_ack now).ssthresh_history =
        (reachable a ops).ssthresh_history ++ [(reachable a ops).ssthresh] ∧
      ((reachable a ops).duplicate_ack now).state_history =
        (reachable a ops).state_history ++ [lbl] ∧
      ((reachable a ops).duplicate_ack now).throughput_history =
        (reachable a ops).throughput_history ∧
      ((reachable a ops).duplicate_ack now).rtt_history =
        (reachable a ops).rtt_history) ∧
    (∀ now, ¬ 3 ≤ (reachable a ops).duplicate_ack_count + 1 →
      ((reachable a ops).duplicate_ack now).cwnd_history =
        (reachable a ops).cwnd_history ∧
      ((reachable a ops).duplicate_ack now).ssthresh_history =
        (reachable a ops).ssthresh_history ∧
      ((reachable a ops).duplicate_ack now).state_history =
        (reachable a ops).state_history ∧
      ((reachable a ops).duplicate_ack now).throughput_history =
        (reachable a ops).throughput_history ∧
      ((reachable a ops).duplicate_ack now).rtt_history =
        (reachable a ops).rtt_history) ∧
    (∀ x, ((reachable a ops).receive_ack x).cwnd_history =
        (reachable a ops).cwnd_history ∧
      ((reachable a ops).receive_ack x).ssthresh_history =
        (reachable a ops).ssthresh_history ∧
      ((reachable a ops).receive_ack x).state_history =
        (reachable a ops).state_history ∧
      ((reachable a ops).receive_ack x).throughput_history =
        (reachable a ops).throughput_history ∧
      ((reachable a ops).receive_ack x).rtt_history =
        (reachable a ops).rtt_history) ∧
    (∀ l u d, ((reachable a ops).set_network_conditions l u d).cwnd_history =
        (reachable a ops).cwnd_history ∧
      ((reachable a ops).set_network_conditions l u d).ssthresh_history =
        (reachable a ops).ssthresh_history ∧
      ((reachable a ops).set_network_conditions l u d).state_history =
        (reachable a ops).state_history ∧
      ((reachable a ops).set_network_conditions l u d).throughput_history =
        (reachable a ops).throughput_history ∧
      ((reachable a ops).set_network_conditions l u d).rtt_history =
        (reachable a ops).rtt_history) ∧
    (reachable a ops).cwnd_history.length = (reachable a ops).ssthresh_history.length ∧
    (reachable a ops).ssthresh_history.length =
      (reachable a ops).state_history.length ∧
    (reachable a ops).throughput_history.length =
      (reachable a ops).rtt_history.length := by
  obtain ⟨h1, h2, h3, h4, h5, h6, h7, h8⟩ :=
    TCPTahoe.good_run ops (TCPTahoe.init a) (TCPTahoe.good_init a)
  refine ⟨?_, ?_, ?_, ?_, ?_, ?_, h6, h7, h8⟩
  · intro now; exact TCPTahoe.send_histories _ now h1 h3 h4 h5
  · intro now; exact TCPTahoe.timeout_histories _ now
  · intro now hf; exact TCPTahoe.dup_fire_histories _ now hf
  · intro now hnf
    rw [TCPTahoe.dup_nofire _ now hnf]
    exact ⟨rfl, rfl, rfl, rfl, rfl⟩
  · intro x; exact TCPTahoe.receive_histories _ x
  · intro l u d; exact ⟨rfl, rfl, rfl, rfl, rfl⟩

theorem C5_amended_witness :
    ((reachable CongestionAlgorithm.TAHOE []).duplicate_ack 0).cwnd_history =
      (reachable CongestionAlgorithm.TAHOE []).cwnd_history ∧
    ((reachable CongestionAlgorithm.TAHOE []).receive_ack 7).state_history =
      (reachable CongestionAlgorithm.TAHOE []).state_history := by
  have h := C5_history_append_amended CongestionAlgorithm.TAHOE []
  exact ⟨(h.2.2.2.1 0 (by decide)).1, (h.2.2.2.2.1 7).2.2.1⟩

theorem C3_amended_witness :
    ((((tahoeSsEight.send_packet 0).send_packet 0).send_packet 0).send_packet 0).cwnd
      = 9 ∧
    (((tahoeSsEight.send_packet 0).send_packet 0).send_packet 0).current_state =
      TCPState.CONGESTION_AVOIDANCE := by
  have h := (C3_slow_start_doubling_amended tahoeSsEight 0 0 0 0 rfl rfl rfl).1 rfl
  exact ⟨h.2.2.2.2.2.2.1, h.2.2.2.2.2.1⟩
